import Mathlib

/-!
Verification of the drone-network simulation backend.

The Rust backend is shallowly embedded: `f32` quantities are modelled as
exact rationals (`ℚ`), the unsigned integer types `Millisecond`,
`PowerUnit` and `DeviceId` as `Nat` (with Rust's `saturating_sub`
becoming truncated `Nat` subtraction), hash maps as association lists
with unique keys, and fallible functions return `Except` paired with the
updated state.  Randomness (the RX capture check) is passed in as an
explicit boolean coin.  A few leaf modules of the repository
(`mathphysics/unit.rs`, `mathphysics/vector.rs`, `malware.rs`,
`device/systems/movement.rs`, the current `trx/tx.rs`) are not present
in the source tree; the definitions derived from them are marked
`Modelled from the spec:` and follow the specification text.
-/

namespace DroneNet

instance {ε α : Type} [DecidableEq ε] [DecidableEq α] : DecidableEq (Except ε α) :=
  fun a b =>
    match a, b with
    | .error e, .error f => decidable_of_iff (e = f) (by simp)
    | .ok x, .ok y => decidable_of_iff (x = y) (by simp)
    | .error _, .ok _ => isFalse (by intro h; cases h)
    | .ok _, .error _ => isFalse (by intro h; cases h)

/-- Device identifiers (`DeviceId = usize`). -/
abbrev DeviceId := Nat

/-- Simulated time in milliseconds. -/
abbrev Millisecond := Nat

/-- Power units (an unsigned integer in the source). -/
abbrev PowerUnit := Nat

/-- Frequencies in megahertz. -/
abbrev Megahertz := Nat

/-- Distances in meters, modelled as exact rationals. -/
abbrev Meter := ℚ

/-- The reserved destination id meaning every device (`BROADCAST_ID`). -/
def BROADCAST_ID : DeviceId := 0

/-- Duration of one simulation tick in milliseconds (`ITERATION_TIME`). -/
def ITERATION_TIME : Millisecond := 50

/-- Destination arrival radius in meters (`DESTINATION_RADIUS`). -/
def DESTINATION_RADIUS : Meter := 5

/-- The control-channel frequency (`Frequency::Control = 2_400`). -/
def CONTROL_FREQUENCY : Megahertz := 2400

/-- The GPS L1 frequency (`GPS_L1_FREQUENCY = 1_575`). -/
def GPS_L1_FREQUENCY : Megahertz := 1575

/-! ## Signal strength and signal levels (`signal/strength.rs`, `signal/level.rs`) -/

/-- Continuous signal strength (`SignalStrength`, an `f32` newtype). -/
abbrev SignalStrength := ℚ

/-- Strength threshold below (inclusive) which a signal is Black. -/
def MAX_BLACK_SIGNAL_STRENGTH : SignalStrength := 1

/-- Green reference strength (`GREEN_SIGNAL_STRENGTH_VALUE = 100.0`). -/
def GREEN_SIGNAL_STRENGTH_VALUE : SignalStrength := 100

/-- Strength threshold below (inclusive) which a non-Black signal is
Red: `GREEN_SIGNAL_STRENGTH_VALUE * 0.2`, written as its value `20` so
the kernel can evaluate comparisons against it. -/
def MAX_RED_SIGNAL_STRENGTH : SignalStrength := 20

/-- Strength threshold below (inclusive) which a non-Red signal is
Yellow: `GREEN_SIGNAL_STRENGTH_VALUE * 0.5`, written as its value `50`
so the kernel can evaluate comparisons against it. -/
def MAX_YELLOW_SIGNAL_STRENGTH : SignalStrength := 50

/-- Scaling constant for attenuation (`SIGNAL_STRENGTH_SCALING = 2_500.0`). -/
def SIGNAL_STRENGTH_SCALING : ℚ := 2500

/-- Signal level: a quality tier carrying the underlying continuous
strength (the Rust `SignalLevel(SignalLevelInner)`; we flatten the
single-field wrapper). -/
inductive SignalLevel where
  | black (strength : SignalStrength)
  | red (strength : SignalStrength)
  | yellow (strength : SignalStrength)
  | green (strength : SignalStrength)
  deriving DecidableEq, Repr

namespace SignalLevel

/-- The variant order used by the derived `PartialOrd` on
`SignalLevelInner` (Black < Red < Yellow < Green). -/
def rank : SignalLevel → Nat
  | .black _ => 0
  | .red _ => 1
  | .yellow _ => 2
  | .green _ => 3

/-- The strength carried by the level (`SignalLevel::strength`). -/
def strength : SignalLevel → SignalStrength
  | .black s => s
  | .red s => s
  | .yellow s => s
  | .green s => s

/-- Derived lexicographic order of the Rust `PartialOrd`: compare the
variant first, then the carried strength. -/
protected def le (a b : SignalLevel) : Prop :=
  a.rank < b.rank ∨ (a.rank = b.rank ∧ a.strength ≤ b.strength)

instance : LE SignalLevel := ⟨SignalLevel.le⟩

instance : LT SignalLevel := ⟨fun a b => a ≤ b ∧ ¬ b ≤ a⟩

instance (a b : SignalLevel) : Decidable (a ≤ b) := by
  change Decidable (a.rank < b.rank ∨ (a.rank = b.rank ∧ a.strength ≤ b.strength))
  infer_instance

instance (a b : SignalLevel) : Decidable (a < b) := by
  change Decidable (a ≤ b ∧ ¬ b ≤ a)
  infer_instance

/-- Bucket a raw strength into a level (`SignalLevelInner::from`). -/
def fromStrength (s : SignalStrength) : SignalLevel :=
  if MAX_YELLOW_SIGNAL_STRENGTH < s then .green s
  else if MAX_RED_SIGNAL_STRENGTH < s then .yellow s
  else if MAX_BLACK_SIGNAL_STRENGTH < s then .red s
  else .black s

/-- `SignalLevel::is_black`. -/
def isBlack : SignalLevel → Bool
  | .black _ => true
  | _ => false

/-- `SignalLevel::is_red`. -/
def isRed : SignalLevel → Bool
  | .red _ => true
  | _ => false

/-- `SignalLevel::is_yellow`. -/
def isYellow : SignalLevel → Bool
  | .yellow _ => true
  | _ => false

/-- `SignalLevel::is_green`. -/
def isGreen : SignalLevel → Bool
  | .green _ => true
  | _ => false

end SignalLevel

/-- `BLACK_SIGNAL_LEVEL`, the strongest Black level. -/
def BLACK_SIGNAL_LEVEL : SignalLevel := .black MAX_BLACK_SIGNAL_STRENGTH

/-- `RED_SIGNAL_LEVEL`, the strongest Red level. -/
def RED_SIGNAL_LEVEL : SignalLevel := .red MAX_RED_SIGNAL_STRENGTH

/-- `YELLOW_SIGNAL_LEVEL`, the strongest Yellow level. -/
def YELLOW_SIGNAL_LEVEL : SignalLevel := .yellow MAX_YELLOW_SIGNAL_STRENGTH

/-- `GREEN_SIGNAL_LEVEL`, the reference Green level. -/
def GREEN_SIGNAL_LEVEL : SignalLevel := .green GREEN_SIGNAL_STRENGTH_VALUE

/-- Modelled from the spec: `wave_length_in_meters` lives in the absent
`mathphysics/unit.rs`; the spec gives `wavelength = speed_of_light /
frequency` (frequency in MHz, result in meters), which also reproduces
the concrete values the in-tree unit tests of `signal/level.rs` expect. -/
def waveLengthInMeters (frequency : Megahertz) : ℚ :=
  299792458 / ((frequency : ℚ) * 1000000)

namespace SignalLevel

/-- Free-space attenuation (`SignalLevel::at`): Black sources stay
Black; otherwise the strength is multiplied by `wavelength²` within one
wavelength and `(wavelength/distance)²` beyond it, times the fixed
scaling constant, and re-bucketed into a level.  (Named `atDistance`
because `at` is reserved in Lean.) -/
def atDistance (level : SignalLevel) (frequency : Megahertz) (distance : Meter) : SignalLevel :=
  if level ≤ BLACK_SIGNAL_LEVEL then
    BLACK_SIGNAL_LEVEL
  else
    let waveLength := waveLengthInMeters frequency
    let rxSignalStrength :=
      (if distance ≤ waveLength then waveLength ^ 2 else (waveLength / distance) ^ 2)
        * level.strength * SIGNAL_STRENGTH_SCALING
    fromStrength rxSignalStrength

/-- Well-formedness invariant of the data model (§3 of the spec): the
tier of a level is consistent with its strength, i.e. the level is what
`SignalLevelInner::from` produces for its own strength. -/
def WellFormed (level : SignalLevel) : Prop :=
  fromStrength level.strength = level

instance (level : SignalLevel) : Decidable level.WellFormed := by
  unfold WellFormed; infer_instance

end SignalLevel

/-! ## Signals and the delayed signal queue (`signal.rs`, `signal/queue.rs`) -/

/-- 3D points with rational coordinates (`Point3D`). -/
structure Point3D where
  x : ℚ
  y : ℚ
  z : ℚ
  deriving DecidableEq, Repr

instance : Inhabited Point3D := ⟨⟨0, 0, 0⟩⟩

/-- Malware types: DoS with a power-loss amount, or a passive indicator.
Modelled from the spec: `malware.rs` is absent from the tree; §3 gives
`Malware` as a type `DoS(power loss) | Indicator` plus an infection
delay and an optional spread delay. -/
inductive MalwareType where
  | dos (lostPower : PowerUnit)
  | indicator
  deriving DecidableEq, Repr

/-- Modelled from the spec: the `Malware` value (see `MalwareType`). -/
structure Malware where
  malwareType : MalwareType
  infectionDelay : Millisecond
  spreadDelay : Option Millisecond
  deriving DecidableEq, Repr

/-- Per-malware infection state (`InfectionState`), used in
`MalwareToStateMap = HashMap<Malware, (Millisecond, InfectionState)>`. -/
inductive InfectionState where
  | vulnerable
  | infected
  | patched
  deriving DecidableEq, Repr

/-- Task variants (`TaskType`). -/
inductive TaskType where
  | attack
  | reconnect
  | reposition
  | undefined
  deriving DecidableEq, Repr

/-- A task with an optional destination (`Task`). -/
structure Task where
  taskType : TaskType
  dest : Option Point3D
  deriving DecidableEq, Repr

instance : Inhabited Task := ⟨⟨.undefined, none⟩⟩

/-- Signal payloads (`Data`). -/
inductive SignalData where
  | gps (position : Point3D)
  | malware (malware : Malware)
  | setTask (task : Task)
  deriving DecidableEq, Repr

/-- A signal (`Signal`): source, destination (or broadcast id), optional
payload, frequency and the level at creation time. -/
structure Signal where
  sourceId : DeviceId
  destinationId : DeviceId
  data : Option SignalData
  frequency : Megahertz
  level : SignalLevel
  deriving DecidableEq, Repr

/-- `Signal::to_noise`: drop the payload, keep the envelope. -/
def Signal.toNoise (s : Signal) : Signal := { s with data := none }

/-- A delay map `IdToDelayMap = HashMap<DeviceId, Millisecond>`,
modelled as an association list with unique keys. -/
abbrev IdToDelayMap := List (DeviceId × Millisecond)

/-- Delay lookup with broadcast fallback (`any_delay_for`): the
destination's own entry, else the broadcast entry, else zero. -/
def anyDelayFor (deviceId : DeviceId) (delayMap : IdToDelayMap) : Millisecond :=
  match delayMap.lookup deviceId with
  | some delay => delay
  | none =>
    match delayMap.lookup BROADCAST_ID with
    | some broadcastDelay => broadcastDelay
    | none => 0

/-- One queue entry: creation time, the signal, and the per-destination
delay map (`SignalQueueEntry`). -/
abbrev SignalQueueEntry := Millisecond × Signal × IdToDelayMap

/-- The delayed signal queue (`SignalQueue`). -/
abbrev SignalQueue := List SignalQueueEntry

/-- `SignalQueue::get_current_signals_for`: the signals of entries whose
delay for the requested destination makes them due exactly now and whose
destination id is the requested one. -/
def getCurrentSignalsFor (queue : SignalQueue) (destinationId : DeviceId)
    (currentTime : Millisecond) : List Signal :=
  queue.filterMap fun (time, signal, delayMap) =>
    let delay := anyDelayFor destinationId delayMap
    if currentTime = time + delay ∧ signal.destinationId = destinationId then
      some signal
    else
      none

/-- The longest delay of an entry's delay map, zero when the map is
empty (`delay_map.values().max().unwrap_or(&0)`). -/
def longestDelay (delayMap : IdToDelayMap) : Millisecond :=
  (delayMap.map Prod.snd).foldr max 0

/-- `SignalQueue::remove_old_signals`: retain an entry only while the
current time is strictly before creation time plus its longest delay. -/
def removeOldSignals (queue : SignalQueue) (currentTime : Millisecond) : SignalQueue :=
  queue.filter fun (time, _, delayMap) =>
    currentTime < time + longestDelay delayMap

/-! ## Power system (`device/systems/power.rs`) -/

/-- The power-system error (`PowerSystemError`). -/
inductive PowerSystemError where
  | noPowerLeft
  deriving DecidableEq, Repr

/-- The power system (`PowerSystem`): a maximum and a current power. -/
structure PowerSystem where
  maxPower : PowerUnit
  power : PowerUnit
  deriving DecidableEq, Repr

instance : Inhabited PowerSystem := ⟨⟨0, 0⟩⟩

/-- `PowerSystem::consume_power`: saturating-subtract the requested
power, then fail with `NoPowerLeft` whenever the remaining power is
zero. -/
def PowerSystem.consumePower (ps : PowerSystem) (powerToConsume : PowerUnit) :
    Except PowerSystemError Unit × PowerSystem :=
  let ps' : PowerSystem := { ps with power := ps.power - powerToConsume }
  if ps'.power = 0 then
    (.error .noPowerLeft, ps')
  else
    (.ok (), ps')

/-! ## RX module (`device/systems/trx/rx.rs`) -/

/-- RX errors (`RXError`). -/
inductive RXError where
  | notListeningOnFrequency
  | noiseReceived
  | signalNotReceived
  | signalTooWeak
  deriving DecidableEq, Repr

/-- A buffered received signal with its arrival time (`ReceivedSignal`). -/
abbrev ReceivedSignal := Millisecond × Signal

/-- `FreqToLevelMap = HashMap<Megahertz, SignalLevel>` as an association
list with unique keys. -/
abbrev FreqToLevelMap := List (Megahertz × SignalLevel)

/-- Probability that an arriving signal of the given level is captured
(`signal_receive_probability`); the Bernoulli draw itself is passed to
`receiveSignal` as an explicit coin. -/
def signalReceiveProbability (signalLevel : SignalLevel) : ℚ :=
  if signalLevel.isGreen then 95/100
  else if signalLevel.isYellow then 70/100
  else if signalLevel.isRed then 50/100
  else 10/100

/-- The receive module (`RXModule`): per-frequency maximum receivable
levels and a buffer of received signals. -/
structure RXModule where
  maxSignalLevels : FreqToLevelMap
  receivedSignals : List ReceivedSignal
  deriving DecidableEq, Repr

instance : Inhabited RXModule := ⟨⟨[], []⟩⟩

namespace RXModule

/-- `RXModule::receives_signal_on`: a live (payload-carrying) signal is
buffered on the frequency. -/
def receivesSignalOn (m : RXModule) (frequency : Megahertz) : Bool :=
  m.receivedSignals.any fun rs =>
    rs.2.frequency = frequency ∧ rs.2.data.isSome

/-- `RXModule::received_signal_on`: the first buffered signal on the
frequency. -/
def receivedSignalOn (m : RXModule) (frequency : Megahertz) : Option ReceivedSignal :=
  m.receivedSignals.find? fun rs => rs.2.frequency = frequency

/-- `RXModule::max_signal_level_on`: fails with
`NotListeningOnFrequency` when the frequency has no entry or a Black
entry. -/
def maxSignalLevelOn (m : RXModule) (frequency : Megahertz) :
    Except RXError SignalLevel :=
  match m.maxSignalLevels.lookup frequency with
  | none => .error .notListeningOnFrequency
  | some maxSignalLevel =>
    if maxSignalLevel.isBlack then .error .notListeningOnFrequency
    else .ok maxSignalLevel

/-- `RXModule::remove_current_received_signal_on`: drop the first
buffered signal on the frequency, if any. -/
def removeCurrentReceivedSignalOn (m : RXModule) (frequency : Megahertz) : RXModule :=
  { m with receivedSignals :=
      m.receivedSignals.eraseP fun rs => rs.2.frequency = frequency }

/-- `RXModule::receive_signal` with the random capture draw passed in as
`coin` (true means the Bernoulli check of `signal_is_received`
succeeded): listening check, strictly-stronger-buffered check,
probabilistic capture check, then buffering — as noise (with
`NoiseReceived`) when the level exceeds the module's maximum, as the
live signal otherwise. -/
def receiveSignal (m : RXModule) (coin : Bool) (signal : Signal)
    (time : Millisecond) : Except RXError Unit × RXModule :=
  match m.maxSignalLevelOn signal.frequency with
  | .error e => (.error e, m)
  | .ok maxSignalLevel =>
    let tooWeak : Bool :=
      match m.receivedSignalOn signal.frequency with
      | some (_, currentSignal) => decide (signal.level < currentSignal.level)
      | none => false
    if tooWeak then
      (.error .signalTooWeak, m)
    else if ¬ coin then
      (.error .signalNotReceived, m)
    else
      let m1 := m.removeCurrentReceivedSignalOn signal.frequency
      if maxSignalLevel < signal.level then
        (.error .noiseReceived,
          { m1 with receivedSignals := m1.receivedSignals ++ [(time, signal.toNoise)] })
      else
        (.ok (),
          { m1 with receivedSignals := m1.receivedSignals ++ [(time, signal)] })

/-- `RXModule::clear_signals`. -/
def clearSignals (m : RXModule) : RXModule :=
  { m with receivedSignals := [] }

end RXModule

/-! ## TX module and TRX system (`device/systems/trx.rs`) -/

/-- Modelled from the spec: the revision of `trx/tx.rs` matching
`trx.rs` is absent from the tree (the file present is a stale API); per
§4.2, the TX side is a map frequency → nominal transmit level. -/
structure TXModule where
  signalLevels : FreqToLevelMap
  deriving DecidableEq, Repr

instance : Inhabited TXModule := ⟨⟨[]⟩⟩

/-- Modelled from the spec: `TXModule::signal_level_at_by_strength`
(§4.2 `signal_at`): `None` when the module has no capability on the
frequency or the attenuated level is Black, otherwise the attenuated
level. -/
def TXModule.signalLevelAtByStrength (tx : TXModule) (distance : Meter)
    (frequency : Megahertz) : Option SignalLevel :=
  match tx.signalLevels.lookup frequency with
  | none => none
  | some level =>
    let rxLevel := level.atDistance frequency distance
    if rxLevel.isBlack then none else some rxLevel

/-- `SignalLevel::lower_level`: one tier down, with the tiers' reference
strengths. -/
def SignalLevel.lowerLevel : SignalLevel → SignalLevel
  | .black _ => BLACK_SIGNAL_LEVEL
  | .red _ => BLACK_SIGNAL_LEVEL
  | .yellow _ => RED_SIGNAL_LEVEL
  | .green _ => YELLOW_SIGNAL_LEVEL

/-- `SignalLevel::at_by_zone`: tier degradation by distance band of the
same-level coverage radius.  The radius comes from
`SignalArea::from_level` (absent `signal/area.rs`); modelled from the
spec as the inverse of `from_area`, the radius satisfies
`radius² = wavelength² * strength * scaling`, and each band comparison
against the non-negative distance is taken on squares. -/
def SignalLevel.atByZone (level : SignalLevel) (frequency : Megahertz)
    (distance : Meter) : SignalLevel :=
  let radiusSq := (waveLengthInMeters frequency) ^ 2 * level.strength * SIGNAL_STRENGTH_SCALING
  if distance ^ 2 ≤ radiusSq * (1/100) then level
  else if distance ^ 2 ≤ radiusSq * (4/100) then level.lowerLevel
  else if distance ^ 2 ≤ radiusSq then level.lowerLevel.lowerLevel
  else BLACK_SIGNAL_LEVEL

/-- Modelled from the spec: `TXModule::signal_level_at_by_color` (§4.2
`signal_at` with the zoned propagation model): `None` on a missing
frequency or a Black result. -/
def TXModule.signalLevelAtByColor (tx : TXModule) (distance : Meter)
    (frequency : Megahertz) : Option SignalLevel :=
  match tx.signalLevels.lookup frequency with
  | none => none
  | some level =>
    let rxLevel := level.atByZone frequency distance
    if rxLevel.isBlack then none else some rxLevel

/-- Transceiver propagation mode (`TRXSystemType`). -/
inductive TRXSystemType where
  | color
  | strength
  deriving DecidableEq, Repr

/-- TRX errors (`TRXSystemError`). -/
inductive TRXSystemError where
  | rxModuleError (e : RXError)
  | rxOutOfRange
  | wrongSignalDestination
  | wrongSignalSource
  deriving DecidableEq, Repr

/-- The transceiver system (`TRXSystem`). -/
structure TRXSystem where
  trxSystemType : TRXSystemType
  txModule : TXModule
  rxModule : RXModule
  deriving DecidableEq, Repr

instance : Inhabited TRXSystem := ⟨⟨.strength, default, default⟩⟩

namespace TRXSystem

/-- `TRXSystem::receives_signal_on`. -/
def receivesSignalOn (trx : TRXSystem) (frequency : Megahertz) : Bool :=
  trx.rxModule.receivesSignalOn frequency

/-- `TRXSystem::tx_signal_level_at`: dispatch on the propagation mode. -/
def txSignalLevelAt (trx : TRXSystem) (distance : Meter)
    (frequency : Megahertz) : Option SignalLevel :=
  match trx.trxSystemType with
  | .color => trx.txModule.signalLevelAtByColor distance frequency
  | .strength => trx.txModule.signalLevelAtByStrength distance frequency

/-- `TRXSystem::receive_signal`, wrapping RX errors. -/
def receiveSignal (trx : TRXSystem) (coin : Bool) (signal : Signal)
    (time : Millisecond) : Except TRXSystemError Unit × TRXSystem :=
  match trx.rxModule.receiveSignal coin signal time with
  | (.error e, rx') => (.error (.rxModuleError e), { trx with rxModule := rx' })
  | (.ok (), rx') => (.ok (), { trx with rxModule := rx' })

/-- `TRXSystem::clear_received_signals`. -/
def clearReceivedSignals (trx : TRXSystem) : TRXSystem :=
  { trx with rxModule := trx.rxModule.clearSignals }

end TRXSystem

/-! ## Movement system -/

/-- A 3D vector given by its endpoints.  Modelled from the spec:
`mathphysics/vector.rs` is absent; the fields and `displacement` follow
their uses in `device.rs` (`velocity.initial_point.z`,
`velocity().displacement()`). -/
structure Vector3D where
  initialPoint : Point3D
  terminalPoint : Point3D
  deriving DecidableEq, Repr

/-- The displacement of a vector, the per-second velocity components
used by the equation of motion. -/
def Vector3D.displacement (v : Vector3D) : Point3D :=
  ⟨v.terminalPoint.x - v.initialPoint.x,
   v.terminalPoint.y - v.initialPoint.y,
   v.terminalPoint.z - v.initialPoint.z⟩

/-- Modelled from the spec: scaling a vector to a target magnitude
(`Vector3D::scale_to`) requires a square root, which has no exact value
over ℚ; no claim settled here observes the scaled magnitude (every use
is either discarded before the position advances or independent of the
velocity), so the direction vector is kept unscaled. -/
def Vector3D.scaleTo (v : Vector3D) (_targetMagnitude : ℚ) : Vector3D := v

/-- Modelled from the spec: `device/systems/movement.rs` is absent; per
§3 a movement system holds a (believed) position, a velocity, a maximum
speed and an enabled/disabled flag; the zeroed default is disabled
("functionally disabling" per the selfdestruction glossary entry). -/
structure MovementSystem where
  position : Point3D
  velocity : Vector3D
  maxSpeed : ℚ
  disabled : Bool
  deriving DecidableEq, Repr

instance : Inhabited MovementSystem :=
  ⟨⟨default, ⟨default, default⟩, 0, true⟩⟩

namespace MovementSystem

/-- Modelled from the spec: `MovementSystem::is_disabled`. -/
def isDisabled (ms : MovementSystem) : Bool := ms.disabled

/-- Modelled from the spec: `MovementSystem::set_position` (the believed
GPS position). -/
def setPosition (ms : MovementSystem) (p : Point3D) : MovementSystem :=
  { ms with position := p }

/-- Modelled from the spec: `MovementSystem::set_velocity`. -/
def setVelocity (ms : MovementSystem) (v : Vector3D) : MovementSystem :=
  { ms with velocity := v }

/-- Modelled from the spec: `MovementSystem::set_direction` points the
velocity from the believed position toward the destination ("move toward
the destination", §4.3); the max-speed magnitude scaling is unscaled as
in `Vector3D.scaleTo`. -/
def setDirection (ms : MovementSystem) (dest : Point3D) : MovementSystem :=
  { ms with velocity := ⟨ms.position, dest⟩ }

end MovementSystem

/-! ## Geometry helpers (`mathphysics.rs`) -/

/-- `equation_of_motion_1d`: `velocity.mul_add(time, start_position)`. -/
def equationOfMotion1d (startPosition velocity time : ℚ) : ℚ :=
  velocity * time + startPosition

/-- `equation_of_motion_3d`. -/
def equationOfMotion3d (startPosition velocity : Point3D) (time : ℚ) : Point3D :=
  ⟨equationOfMotion1d startPosition.x velocity.x time,
   equationOfMotion1d startPosition.y velocity.y time,
   equationOfMotion1d startPosition.z velocity.z time⟩

/-- Modelled from the spec: `millis_to_secs` from the absent
`mathphysics/unit.rs`; milliseconds to seconds. -/
def millisToSecs (ms : Millisecond) : ℚ := (ms : ℚ) / 1000

/-- Squared Euclidean distance between two points.  The Euclidean norm
itself (`Vector3D::size`, absent `vector.rs`, spec: "Euclidean norm of
the difference vector") is irrational in general; every comparison the
embedded code makes against a distance is equivalent to the comparison
of squares, so distances enter through this function. -/
def Point3D.distSq (a b : Point3D) : ℚ :=
  (b.x - a.x) ^ 2 + (b.y - a.y) ^ 2 + (b.z - a.z) ^ 2

/-! ## Device (`device.rs`) -/

/-- Per-device response to losing the control signal
(`SignalLossResponse`). -/
inductive SignalLossResponse where
  | ascend
  | ignore
  | hover
  | returnToHome (home : Point3D)
  | shutdown
  deriving DecidableEq, Repr

/-- Device errors (`DeviceError`). -/
inductive DeviceError where
  | disabledSystem
  | powerSystemError (e : PowerSystemError)
  | trxSystemError (e : TRXSystemError)
  deriving DecidableEq, Repr

/-- `MalwareToStateMap = HashMap<Malware, (Millisecond, InfectionState)>`
as an association list with unique keys. -/
abbrev MalwareToStateMap := List (Malware × (Millisecond × InfectionState))

/-- Replace the value stored at a key, or append the pair when the key
is absent: the `HashMap::insert` operation on the association-list
model. -/
def mapInsert {α β : Type} [DecidableEq α] (m : List (α × β)) (key : α) (val : β) :
    List (α × β) :=
  if m.any (fun p => p.1 = key) then
    m.map fun p => if p.1 = key then (key, val) else p
  else
    m ++ [(key, val)]

/-- Fixed per-tick movement power cost (`MOVEMENT_POWER_CONSUMPTION`). -/
def MOVEMENT_POWER_CONSUMPTION : PowerUnit := 5

/-- Fixed per-tick passive power cost (`PASSIVE_POWER_CONSUMPTION`). -/
def PASSIVE_POWER_CONSUMPTION : PowerUnit := 1

/-- Per-payload signal processing power cost
(`PROCESSING_POWER_CONSUMPTION`). -/
def PROCESSING_POWER_CONSUMPTION : PowerUnit := 5

/-- A device (`Device`). -/
structure Device where
  id : DeviceId
  currentTime : Millisecond
  realPosition : Point3D
  task : Task
  powerSystem : PowerSystem
  movementSystem : MovementSystem
  trxSystem : TRXSystem
  infectionStates : MalwareToStateMap
  signalLossResponse : SignalLossResponse
  deriving DecidableEq, Repr

namespace Device

/-- `Device::new`: every vulnerability starts `Vulnerable` at time 0;
the device clock starts at 0. -/
def new (id : DeviceId) (realPosition : Point3D) (task : Task)
    (powerSystem : PowerSystem) (movementSystem : MovementSystem)
    (trxSystem : TRXSystem) (vulnerabilities : List Malware)
    (signalLossResponse : SignalLossResponse) : Device where
  id := id
  currentTime := 0
  realPosition := realPosition
  task := task
  powerSystem := powerSystem
  movementSystem := movementSystem
  trxSystem := trxSystem
  infectionStates := vulnerabilities.map fun malware => (malware, (0, .vulnerable))
  signalLossResponse := signalLossResponse

/-- `Device::is_shut_down`: no power left. -/
def isShutDown (d : Device) : Bool := d.powerSystem.power = 0

/-- `Device::infection_state_on`: the stored state, defaulting to
`Patched` for malware the device has no entry for. -/
def infectionStateOn (d : Device) (malware : Malware) : InfectionState :=
  ((d.infectionStates.lookup malware).getD (0, .patched)).2

/-- `Device::is_infected_with`. -/
def isInfectedWith (d : Device) (malware : Malware) : Bool :=
  match d.infectionStates.lookup malware with
  | some (_, .infected) => true
  | _ => false

/-- `Device::malware_infections`: the (time, malware) pairs the device
is currently infected with. -/
def malwareInfections (d : Device) : List (Millisecond × Malware) :=
  d.infectionStates.filterMap fun (malware, (time, infectionState)) =>
    match infectionState with
    | .infected => some (time, malware)
    | _ => none

/-- `Device::receives_signal_on`. -/
def receivesSignalOn (d : Device) (frequency : Megahertz) : Bool :=
  d.trxSystem.receivesSignalOn frequency

/-- `Device::selfdestruction`: zero out the power, movement and TRX
systems. -/
def selfdestruction (d : Device) : Device :=
  { d with
    powerSystem := default
    movementSystem := default
    trxSystem := default }

/-- `Device::try_consume_power`: consume from the power system,
selfdestructing on failure. -/
def tryConsumePower (d : Device) (power : PowerUnit) :
    Except PowerSystemError Unit × Device :=
  match d.powerSystem.consumePower power with
  | (.error e, _) => (.error e, d.selfdestruction)
  | (.ok (), ps') => (.ok (), { d with powerSystem := ps' })

/-- `Device::receive_signal`: destination check, then the TRX system. -/
def receiveSignal (d : Device) (coin : Bool) (signal : Signal)
    (time : Millisecond) : Except TRXSystemError Unit × Device :=
  if signal.destinationId ≠ BROADCAST_ID ∧ d.id ≠ signal.destinationId then
    (.error .wrongSignalDestination, d)
  else
    match d.trxSystem.receiveSignal coin signal time with
    | (res, trx') => (res, { d with trxSystem := trx' })

/-- `Device::process_malware`: only a `Vulnerable` entry transitions to
`Infected` (stamped with the device clock). -/
def processMalware (d : Device) (malware : Malware) : Device :=
  match d.infectionStateOn malware with
  | .vulnerable =>
    { d with infectionStates :=
        mapInsert d.infectionStates malware (d.currentTime, .infected) }
  | _ => d

/-- `Device::process_data`: GPS fixes update the believed position,
malware runs the infection transition, task payloads overwrite the
task. -/
def processData (d : Device) (data : SignalData) : Device :=
  match data with
  | .gps gpsPosition => { d with movementSystem := d.movementSystem.setPosition gpsPosition }
  | .malware malware => d.processMalware malware
  | .setTask task => { d with task := task }

/-- Processing loop of `Device::process_received_signals` over the
snapshot of buffered signals: each payload costs processing power (a
failure selfdestructs and aborts), then is applied. -/
def processSignalsAux : List ReceivedSignal → Device → Except DeviceError Unit × Device
  | [], d => (.ok (), d)
  | (_, signal) :: rest, d =>
    match signal.data with
    | none => processSignalsAux rest d
    | some data =>
      match d.tryConsumePower PROCESSING_POWER_CONSUMPTION with
      | (.error e, d') => (.error (.powerSystemError e), d')
      | (.ok (), d') => processSignalsAux rest (d'.processData data)

/-- `Device::process_received_signals`. -/
def processReceivedSignals (d : Device) : Except DeviceError Unit × Device :=
  processSignalsAux d.trxSystem.rxModule.receivedSignals d

/-- `Device::at_destination`: within the fixed destination radius.  The
source compares `distance_to(destination) <= DESTINATION_RADIUS`; both
sides are non-negative, so this is exactly the squared comparison. -/
def atDestination (d : Device) (dest : Point3D) : Bool :=
  d.realPosition.distSq dest ≤ DESTINATION_RADIUS ^ 2

/-- `Device::try_complete_task`: an `Attack` task at its destination
selfdestructs, a `Reposition` task at its destination resets to the
default task. -/
def tryCompleteTask (d : Device) : Device :=
  match d.task.dest with
  | none => d
  | some dest =>
    match d.task.taskType with
    | .attack => if d.atDestination dest then d.selfdestruction else d
    | .reposition => if d.atDestination dest then { d with task := default } else d
    | _ => d

/-- `Device::set_horizontal_velocity`: zero the z components of the
velocity and rescale to max speed. -/
def setHorizontalVelocity (d : Device) : Device :=
  let v := d.movementSystem.velocity
  let v := { v with
    initialPoint := { v.initialPoint with z := 0 }
    terminalPoint := { v.terminalPoint with z := 0 } }
  let v := v.scaleTo d.movementSystem.maxSpeed
  { d with movementSystem := d.movementSystem.setVelocity v }

/-- `Device::process_task`: with a destination and GPS, steer toward it
and check completion; with a destination but no GPS, keep a horizontal
velocity; otherwise do nothing. -/
def processTask (d : Device) : Device :=
  let gpsIsConnected := d.receivesSignalOn GPS_L1_FREQUENCY
  match d.task.dest with
  | some dest =>
    if gpsIsConnected then
      ({ d with movementSystem := d.movementSystem.setDirection dest }).tryCompleteTask
    else
      d.setHorizontalVelocity
  | none => d

/-- `Device::handle_signal_loss`: apply the configured signal-loss
response. -/
def handleSignalLoss (d : Device) : Device :=
  match d.signalLossResponse with
  | .ascend =>
    let upwardPoint := { d.realPosition with z := d.realPosition.z + 1 }
    { d with
      movementSystem := d.movementSystem.setDirection upwardPoint
      task := ⟨.reconnect, some upwardPoint⟩ }
  | .hover =>
    ({ d with task := ⟨.reconnect, some d.realPosition⟩ }).processTask
  | .ignore => d.processTask
  | .returnToHome homePoint =>
    ({ d with task := ⟨.reconnect, some homePoint⟩ }).processTask
  | .shutdown => d.selfdestruction

/-- `Device::update_real_position`: fails on a disabled movement system,
consumes the movement power cost (failure selfdestructs), then advances
the real position by the velocity displacement over one tick. -/
def updateRealPosition (d : Device) : Except DeviceError Unit × Device :=
  if d.movementSystem.isDisabled then
    (.error .disabledSystem, d)
  else
    match d.tryConsumePower MOVEMENT_POWER_CONSUMPTION with
    | (.error e, d') => (.error (.powerSystemError e), d')
    | (.ok (), d') =>
      (.ok (), { d' with realPosition :=
        (equationOfMotion3d d'.realPosition d'.movementSystem.velocity.displacement
          (millisToSecs ITERATION_TIME)) })

/-- `Device::handle_malware_infections`: each infection whose payload is
due exactly now applies its effect — DoS consumes extra power (the error
is discarded, but the selfdestruct side effect remains), Indicator does
nothing. -/
def handleMalwareInfections (d : Device) : Device :=
  d.malwareInfections.foldl
    (fun d' (infection : Millisecond × Malware) =>
      let (infectionTime, malware) := infection
      if d'.currentTime ≠ infectionTime + malware.infectionDelay then
        d'
      else
        match malware.malwareType with
        | .dos lostPower => (d'.tryConsumePower lostPower).2
        | .indicator => d')
    d

/-- `Device::update`: passive power, malware payloads, received-signal
processing, task or signal-loss handling, buffer clear, position
advance, clock advance — with the passive-power and movement steps
aborting the tick on error. -/
def update (d : Device) : Except DeviceError Unit × Device :=
  match d.tryConsumePower PASSIVE_POWER_CONSUMPTION with
  | (.error e, d') => (.error (.powerSystemError e), d')
  | (.ok (), d1) =>
    let d2 := d1.handleMalwareInfections
    match d2.processReceivedSignals with
    | (.error e, d') => (.error e, d')
    | (.ok (), d3) =>
      let d4 :=
        if d3.receivesSignalOn CONTROL_FREQUENCY then d3.processTask
        else d3.handleSignalLoss
      let d5 := { d4 with trxSystem := d4.trxSystem.clearReceivedSignals }
      match d5.updateRealPosition with
      | (.error e, d') => (.error e, d')
      | (.ok (), d6) => (.ok (), { d6 with currentTime := d6.currentTime + ITERATION_TIME })

end Device

/-- The operations of the device's external interface that the
orchestrator drives each tick (errors are caught and discarded at the
orchestrator boundary, `let _ = ...`). -/
inductive DeviceOp where
  | receive (coin : Bool) (signal : Signal) (time : Millisecond)
  | processSignals
  | update
  deriving Repr

/-- Apply one operation, discarding its error like the orchestrator. -/
def applyDeviceOp (d : Device) (op : DeviceOp) : Device :=
  match op with
  | .receive coin signal time => (d.receiveSignal coin signal time).2
  | .processSignals => d.processReceivedSignals.2
  | .update => d.update.2

/-- Apply a sequence of operations. -/
def applyDeviceOps (d : Device) (ops : List DeviceOp) : Device :=
  ops.foldl applyDeviceOp d

/-! ## Connection graph (`connections.rs`)

The graph functions are generic over the device type `D`, mirroring the
source's reliance on the `Position` trait: `did` is `Device::id`,
`distTo` the Euclidean `Position::distance_to`, and `txLevelAt` the
`Device::tx_signal_level_at` reachability test.  The `GraphMap` is
modelled as its insertion-ordered directed edge list (all nodes of the
graphs the backend builds are edge endpoints, since edges are only ever
added through `add_edge`). -/

/-- Topology modes (`Topology`). -/
inductive Topology where
  | star
  | mesh
  deriving DecidableEq, Repr

/-- An edge weight: distance and the transmit level at that distance. -/
abbrev EdgeWeight := Meter × SignalLevel

/-- A serialized edge (`SerdeEdge`): source id, target id, weight. -/
abbrev SerdeEdge := DeviceId × DeviceId × EdgeWeight

/-- The directed graph as its edge list (`ConnectionMap`). -/
abbrev ConnectionMap := List SerdeEdge

namespace ConnectionMap

/-- `GraphMap::add_edge`: update the weight when the directed edge
already exists, append it otherwise. -/
def addEdge (g : ConnectionMap) (s t : DeviceId) (w : EdgeWeight) : ConnectionMap :=
  if g.any fun e => e.1 = s ∧ e.2.1 = t then
    g.map fun e => if e.1 = s ∧ e.2.1 = t then (s, t, w) else e
  else
    g ++ [(s, t, w)]

/-- The nodes of the graph: the edge endpoints. -/
def nodes (g : ConnectionMap) : List DeviceId :=
  (g.map (fun e => e.1) ++ g.map (fun e => e.2.1)).dedup

/-- `GraphMap::contains_node`. -/
def containsNode (g : ConnectionMap) (id : DeviceId) : Bool :=
  g.any fun e => e.1 = id ∨ e.2.1 = id

/-- `GraphMap::from_edges`: insert every listed edge in order. -/
def fromEdges (edges : List SerdeEdge) : ConnectionMap :=
  edges.foldl (fun g e => g.addEdge e.1 e.2.1 e.2.2) []

end ConnectionMap

/-- The connection graph (`ConnectionGraph`): the edge map plus the
topology mode. -/
structure ConnectionGraph where
  graphMap : ConnectionMap
  topology : Topology
  deriving DecidableEq, Repr

section ConnectionGraphOps

variable {D : Type} (did : D → DeviceId) (distTo : D → D → Meter)
variable (txLevelAt : D → D → Megahertz → Option SignalLevel)

/-- `ConnectionGraph::connect_devices`: skip self-loops; otherwise add
each direction independently, gated by that direction's transmit
reachability, both weighted with the pair's distance. -/
def connectDevices (g : ConnectionMap) (device1 device2 : D)
    (frequency : Megahertz) : ConnectionMap :=
  if did device1 = did device2 then g
  else
    let distance := distTo device2 device1
    let g1 :=
      match txLevelAt device1 device2 frequency with
      | some txSignalLevelFromDevice1 =>
        g.addEdge (did device1) (did device2) (distance, txSignalLevelFromDevice1)
      | none => g
    match txLevelAt device2 device1 frequency with
    | some txSignalLevelFromDevice2 =>
      g1.addEdge (did device2) (did device1) (distance, txSignalLevelFromDevice2)
    | none => g1

/-- `ConnectionGraph::create_star`: connect the central device with
every device of the map. -/
def createStar (g : ConnectionMap) (centralDevice : D) (devices : List D)
    (frequency : Megahertz) : ConnectionMap :=
  devices.foldl (fun g' device => connectDevices did distTo txLevelAt g' centralDevice device frequency) g

/-- `ConnectionGraph::create_mesh`: connect every pair of devices. -/
def createMesh (g : ConnectionMap) (devices : List D)
    (frequency : Megahertz) : ConnectionMap :=
  devices.foldl
    (fun g' tx =>
      devices.foldl (fun g'' rx => connectDevices did distTo txLevelAt g'' tx rx frequency) g')
    g

/-- `ConnectionGraph::update`: clear the graph, then rebuild it from the
current device set according to the topology; when the command device is
missing from the map the graph stays empty.  (`device_map.get` is the
id-keyed lookup; the backend's maps key every device by its own id, so
it is modelled as a search by device id.) -/
def updateConnectionGraph (cg : ConnectionGraph) (commandDeviceId : DeviceId)
    (devices : List D) (frequency : Megahertz) : ConnectionGraph :=
  match devices.find? fun device => did device = commandDeviceId with
  | none => { cg with graphMap := [] }
  | some commandDevice =>
    match cg.topology with
    | .star =>
      { cg with graphMap := createStar did distTo txLevelAt [] commandDevice devices frequency }
    | .mesh =>
      { cg with graphMap := createMesh did distTo txLevelAt [] devices frequency }

end ConnectionGraphOps

/-! ## Delays (`mathphysics.rs`, `connections.rs`) -/

/-- Modelled from the spec: `SPEED_OF_LIGHT` from the absent
`mathphysics/unit.rs`, in kilometers per second. -/
def SPEED_OF_LIGHT : ℚ := 299792458 / 1000

/-- Modelled from the spec: kilometers-per-second to
meters-per-millisecond (absent `mathphysics/unit.rs`); the two unit
changes cancel numerically. -/
def kmpsToMpms (kmps : ℚ) : ℚ := kmps * 1000 / 1000

/-- Modelled from the spec: `time_in_millis_from_distance_and_speed`
from the absent `mathphysics/unit.rs` — propagation time over the
distance at the given speed, as a whole number of milliseconds. -/
def timeInMillisFromDistanceAndSpeed (distance speed : ℚ) : Millisecond :=
  (⌊distance / speed⌋).toNat

/-- `delay_to`: zero for a zero multiplier; otherwise the propagation
time of the multiplied distance at light speed, floored to a whole
number of tick durations. -/
def delayTo (distance : Meter) (multiplier : ℚ) : Millisecond :=
  if multiplier = 0 then 0
  else
    let delay := timeInMillisFromDistanceAndSpeed (distance * multiplier)
      (kmpsToMpms SPEED_OF_LIGHT)
    let reminder := delay % ITERATION_TIME
    delay - reminder

section DelayMaps

variable {D : Type} (did : D → DeviceId) (distTo : D → D → Meter)

/-- `unicast_delay_map_from_outside_network`: a single-entry map from
the direct distance to the destination device, empty when the
destination id is not in the device map. -/
def unicastDelayMapFromOutsideNetwork (destinationId : DeviceId)
    (sourceDevice : D) (devices : List D) (delayMultiplier : ℚ) : IdToDelayMap :=
  match devices.find? fun device => did device = destinationId with
  | none => []
  | some destinationDevice =>
    [(destinationId, delayTo (distTo sourceDevice destinationDevice) delayMultiplier)]

/-- `ConnectionGraph::broadcast_delay_map_from_outside_network`,
verbatim: for every node of the graph, the entry produced by looking up
`destination_id` — the broadcast id at this call site — in the device
map and taking the distance from the source to that device. -/
def broadcastDelayMapFromOutsideNetwork (g : ConnectionMap)
    (destinationId : DeviceId) (sourceDevice : D) (devices : List D)
    (delayMultiplier : ℚ) : IdToDelayMap :=
  g.nodes.filterMap fun deviceId =>
    match devices.find? fun device => did device = destinationId with
    | none => none
    | some destinationDevice =>
      some (deviceId, delayTo (distTo sourceDevice destinationDevice) delayMultiplier)

/-- `ConnectionGraph::delay_map_from_outside_network` — the branch
`ConnectionGraph::delay_map` takes when the source device is not a node
of the graph: broadcast destinations use the broadcast map, others the
unicast map. -/
def delayMapFromOutsideNetwork (g : ConnectionMap) (sourceDevice : D)
    (destinationId : DeviceId) (devices : List D)
    (delayMultiplier : ℚ) : IdToDelayMap :=
  if destinationId = BROADCAST_ID then
    broadcastDelayMapFromOutsideNetwork did distTo g destinationId sourceDevice
      devices delayMultiplier
  else
    unicastDelayMapFromOutsideNetwork did distTo destinationId sourceDevice
      devices delayMultiplier

end DelayMaps

/-! ## Network model and its persisted snapshot (`networkmodel.rs`) -/

/-- Attacker behaviours (`AttackType`). -/
inductive AttackType where
  | electronicWarfare
  | gpsSpoofing (position : Point3D)
  | malwareDistribution (malware : Malware)
  deriving DecidableEq, Repr

/-- An attacker device (`AttackerDevice`). -/
structure AttackerDevice where
  device : Device
  attackType : AttackType
  deriving DecidableEq, Repr

/-- The GPS source (`GPS`, a wrapped device). -/
structure GPS where
  device : Device
  deriving DecidableEq, Repr

/-- A scenario entry (`ScenarioEntry`): trigger time, target device id
or broadcast, task. -/
abbrev ScenarioEntry := Millisecond × DeviceId × Task

/-- A scripted scenario (`Scenario`). -/
abbrev Scenario := List ScenarioEntry

/-- The tick orchestrator state (`NetworkModel`). -/
structure NetworkModel where
  currentTime : Millisecond
  commandDeviceId : DeviceId
  deviceMap : List (DeviceId × Device)
  attackerDevices : List AttackerDevice
  gps : GPS
  connections : ConnectionGraph
  delayMultiplier : ℚ
  scenario : Scenario
  signalQueue : SignalQueue
  deriving DecidableEq, Repr

/-- The persisted snapshot document of a `NetworkModel`, with the
connection graph stored in the custom edge-list-plus-topology format of
the handwritten `Serialize`/`Deserialize` impls in `connections.rs`; the
remaining fields use their derived structural encodings, modelled here
as the typed field content (the JSON text layer of `serde_json`, and the
derived `Deserialize` impls absent from the tree, are abstracted per the
spec's "structured text document"). -/
structure SnapshotDoc where
  currentTime : Millisecond
  commandDeviceId : DeviceId
  deviceMap : List (DeviceId × Device)
  attackerDevices : List AttackerDevice
  gps : GPS
  connectionEdges : List SerdeEdge
  connectionTopology : Topology
  delayMultiplier : ℚ
  scenario : Scenario
  signalQueue : SignalQueue
  deriving DecidableEq, Repr

/-- `NetworkModel::to_json` down to the snapshot document: field-by-field,
with the connection graph emitted as its edge list (`all_edges`) plus
the topology tag. -/
def NetworkModel.toSnapshot (m : NetworkModel) : SnapshotDoc where
  currentTime := m.currentTime
  commandDeviceId := m.commandDeviceId
  deviceMap := m.deviceMap
  attackerDevices := m.attackerDevices
  gps := m.gps
  connectionEdges := m.connections.graphMap
  connectionTopology := m.connections.topology
  delayMultiplier := m.delayMultiplier
  scenario := m.scenario
  signalQueue := m.signalQueue

/-- `NetworkModel::from_json` from the snapshot document: field-by-field,
with the connection graph rebuilt from the edge list via
`GraphMap::from_edges` as in the handwritten `Deserialize` impl. -/
def NetworkModel.fromSnapshot (doc : SnapshotDoc) : NetworkModel where
  currentTime := doc.currentTime
  commandDeviceId := doc.commandDeviceId
  deviceMap := doc.deviceMap
  attackerDevices := doc.attackerDevices
  gps := doc.gps
  connections :=
    { graphMap := ConnectionMap.fromEdges doc.connectionEdges
      topology := doc.connectionTopology }
  delayMultiplier := doc.delayMultiplier
  scenario := doc.scenario
  signalQueue := doc.signalQueue

/-- Well-formedness of a graph edge list: each directed pair occurs at
most once, as holds for every `GraphMap` (edges are keyed by their
endpoint pair). -/
def ConnectionMap.WFEdges (g : ConnectionMap) : Prop :=
  (g.map fun e => (e.1, e.2.1)).Nodup

instance (g : ConnectionMap) : Decidable g.WFEdges := by
  unfold ConnectionMap.WFEdges; infer_instance

/-! ## Concrete instances for witnesses and counterexamples

The example devices live on the x-axis, where the Euclidean distance of
the absent `Vector3D::size` is exactly the absolute difference of the x
coordinates, so all arithmetic stays in ℚ. -/

/-- A strength-mode TRX system transmitting at the given level on the
control frequency, with no receive capability. -/
def controlTx (level : SignalLevel) : TRXSystem :=
  ⟨.strength, ⟨[(CONTROL_FREQUENCY, level)]⟩, default⟩

/-- A concrete device with the given id, x-axis position and TRX
system: full power budget, enabled movement, no vulnerabilities. -/
def axisDeviceWith (i : DeviceId) (x : ℚ) (trx : TRXSystem) : Device :=
  Device.new i ⟨x, 0, 0⟩ default ⟨100, 100⟩ ⟨⟨0, 0, 0⟩, ⟨⟨0, 0, 0⟩, ⟨0, 0, 0⟩⟩, 25, false⟩
    trx [] .ignore

/-- A concrete device with a default (non-transmitting) TRX system. -/
def axisDevice (i : DeviceId) (x : ℚ) : Device := axisDeviceWith i x default

/-- `Position::distance_to` for devices on the x-axis. -/
def deviceAxisDist (a b : Device) : Meter := |b.realPosition.x - a.realPosition.x|

/-- `Device::tx_signal_level_at` for devices on the x-axis. -/
def deviceTxLevelAt (a b : Device) (frequency : Megahertz) : Option SignalLevel :=
  a.trxSystem.txSignalLevelAt (deviceAxisDist a b) frequency

/-- An RX module listening on the control frequency (max Yellow) with a
Red-level noise signal already buffered. -/
def rxWithRedBuffered : RXModule :=
  ⟨[(CONTROL_FREQUENCY, YELLOW_SIGNAL_LEVEL)],
   [(0, ⟨5, 5, none, CONTROL_FREQUENCY, RED_SIGNAL_LEVEL⟩)]⟩

/-- An incoming signal whose level equals the buffered one. -/
def equalIncoming : Signal := ⟨6, 5, none, CONTROL_FREQUENCY, RED_SIGNAL_LEVEL⟩

/-- An RX module listening on the control frequency (max Yellow) with a
Yellow-level signal already buffered. -/
def rxWithYellowBuffered : RXModule :=
  ⟨[(CONTROL_FREQUENCY, YELLOW_SIGNAL_LEVEL)],
   [(0, ⟨5, 5, none, CONTROL_FREQUENCY, YELLOW_SIGNAL_LEVEL⟩)]⟩

/-- An incoming signal strictly weaker than the Yellow buffered one. -/
def weakIncoming : Signal := ⟨6, 5, none, CONTROL_FREQUENCY, RED_SIGNAL_LEVEL⟩

/-- The command device of the star examples: id 1 at the origin,
transmitting Green on the control frequency. -/
def starCommand : Device := axisDeviceWith 1 0 (controlTx GREEN_SIGNAL_LEVEL)

/-- A drone with no transmit capability, colocated with the command
device. -/
def starDroneNoTx : Device := axisDevice 2 0

/-- A drone transmitting Green on the control frequency, colocated with
the command device. -/
def starDroneTx : Device := axisDeviceWith 2 0 (controlTx GREEN_SIGNAL_LEVEL)

/-- A movement system as built by `MovementSystem::build(25.0)`:
enabled, max drone speed, at the origin. -/
def enabledMovement : MovementSystem :=
  ⟨⟨0, 0, 0⟩, ⟨⟨0, 0, 0⟩, ⟨0, 0, 0⟩⟩, 25, false⟩

/-- A device with exactly the passive-plus-movement power budget for one
tick, an empty receive buffer, enabled movement, and the Ignore
signal-loss response. -/
def budgetDevice : Device :=
  Device.new 1 ⟨0, 0, 0⟩ default ⟨6, 6⟩ enabledMovement default [] .ignore

/-- The same exact-budget device with the Shutdown signal-loss
response. -/
def shutdownDevice : Device :=
  Device.new 1 ⟨0, 0, 0⟩ default ⟨6, 6⟩ enabledMovement default [] .shutdown

/-- A TRX system that only listens (max Yellow) on the control
frequency. -/
def rxOnlyTrx : TRXSystem :=
  ⟨.strength, default, ⟨[(CONTROL_FREQUENCY, YELLOW_SIGNAL_LEVEL)], []⟩⟩

/-- An indicator malware sample with immediate payload and spread. -/
def indicatorMalware : Malware := ⟨.indicator, 0, some 0⟩

/-- A device constructed with an empty vulnerabilities list, able to
receive control-frequency signals. -/
def immuneDevice : Device :=
  Device.new 1 ⟨0, 0, 0⟩ default ⟨100, 100⟩ default rxOnlyTrx [] .ignore

/-- Deliver a malware signal, process the buffer, then run a full
tick. -/
def infectionAttemptOps : List DeviceOp :=
  [.receive true ⟨9, BROADCAST_ID, some (.malware indicatorMalware),
      CONTROL_FREQUENCY, RED_SIGNAL_LEVEL⟩ 0,
   .processSignals,
   .update]

/-! ## Theorems -/

/-- C8: an entry survives `remove_old_signals(t)` exactly when it is in
the queue and `t < creation_time + max(delays)` — equivalently, it is
removed exactly when `t >= creation_time + max(delays)` (the maximum of
an empty delay map being zero, as in the source's `unwrap_or(&0)`). -/
theorem removeOldSignals_mem_iff (queue : SignalQueue) (currentTime : Millisecond)
    (entry : SignalQueueEntry) :
    entry ∈ removeOldSignals queue currentTime ↔
      entry ∈ queue ∧ ¬ entry.1 + longestDelay entry.2.2 ≤ currentTime := by
  rcases entry with ⟨time, signal, delayMap⟩
  unfold removeOldSignals
  simp [List.mem_filter, Nat.lt_iff_add_one_le, Nat.not_le, Nat.lt_iff_add_one_le]

/-- C1 (counterexample): the queue holds a single undelayed entry whose
signal is addressed to device 2; at time 0 the entry satisfies
`t = creation_time + delay(1)` for destination 1, yet
`get_current_signals_for(1, 0)` returns nothing, because the code also
requires the signal's destination id to equal the queried id. -/
theorem getCurrentSignalsFor_needs_destination_match :
    (0 : Millisecond) = 0 + anyDelayFor 1 [] ∧
    getCurrentSignalsFor [(0, ⟨1, 2, none, 2400, BLACK_SIGNAL_LEVEL⟩, [])] 1 0 = [] := by
  decide

/-- C1 (amended): a signal is returned by `get_current_signals_for(d, t)`
iff some queue entry carries it, `t = creation_time + delay(d)` (delay
looked up for `d` with broadcast fallback, else zero), and the signal's
destination id is `d`. -/
theorem getCurrentSignalsFor_mem_iff (queue : SignalQueue) (d : DeviceId)
    (t : Millisecond) (signal : Signal) :
    signal ∈ getCurrentSignalsFor queue d t ↔
      ∃ time delayMap, (time, signal, delayMap) ∈ queue ∧
        t = time + anyDelayFor d delayMap ∧ signal.destinationId = d := by
  unfold getCurrentSignalsFor
  rw [List.mem_filterMap]
  constructor
  · rintro ⟨⟨time, sig, delayMap⟩, hmem, hf⟩
    by_cases hc : t = time + anyDelayFor d delayMap ∧ sig.destinationId = d
    · simp only [hc, and_self, if_true, Option.some.injEq] at hf
      subst hf
      exact ⟨time, delayMap, hmem, hc⟩
    · simp [hc] at hf
  · rintro ⟨time, delayMap, hmem, h1, h2⟩
    exact ⟨(time, signal, delayMap), hmem, by simp [h1, h2]⟩

/-- C4 (counterexample): consuming exactly the remaining power (5 from
5) is not more power than remains, yet `consume_power` returns
`NoPowerLeft` (and zeroes the stored power). -/
theorem consumePower_errs_on_exact_budget :
    ((PowerSystem.mk 10 5).consumePower 5).1
      = Except.error PowerSystemError.noPowerLeft ∧
    ¬ 5 < 5 ∧
    ((PowerSystem.mk 10 5).consumePower 5).2.power = 0 := by
  decide

/-- C4 (amended): `consume_power(p)` first reduces the power by `p`,
saturating at zero, and returns `NoPowerLeft` exactly when `p` is at
least the current power (i.e. when the remaining power reaches zero);
otherwise it succeeds with the power reduced by `p`. -/
theorem consumePower_spec (ps : PowerSystem) (p : PowerUnit) :
    ((ps.consumePower p).1 = Except.error PowerSystemError.noPowerLeft ↔ ps.power ≤ p) ∧
    (ps.consumePower p).2.power = ps.power - p ∧
    (¬ ps.power ≤ p → (ps.consumePower p).1 = Except.ok ()) := by
  simp only [PowerSystem.consumePower]
  split_ifs with h <;> refine ⟨?_, ?_, ?_⟩ <;>
    simp_all [Nat.sub_eq_zero_iff_le]

/-- C2 (counterexample): the buffered Red signal's level is greater than
or equal to (here: equal to) the incoming signal's level, yet
`receive_signal` succeeds (with a successful capture draw) and replaces
the buffer — the code rejects only strictly stronger buffered signals. -/
theorem receiveSignal_equal_level_accepted :
    ((rxWithRedBuffered.receivedSignalOn CONTROL_FREQUENCY).map fun rs => rs.2.level)
      = some equalIncoming.level ∧
    (rxWithRedBuffered.receiveSignal true equalIncoming 1).1 = Except.ok () ∧
    (rxWithRedBuffered.receiveSignal true equalIncoming 1).2 ≠ rxWithRedBuffered := by
  decide

/-- C2 (amended): on a frequency the RX module listens on, an incoming
signal strictly weaker than the one already buffered for that frequency
fails with `SignalTooWeak` and leaves the module (in particular its
receive buffer) unchanged, regardless of the capture draw. -/
theorem receiveSignal_strictly_weaker_rejected (m : RXModule) (coin : Bool)
    (signal : Signal) (time t0 : Millisecond) (currentSignal : Signal)
    (maxLevel : SignalLevel)
    (hmax : m.maxSignalLevelOn signal.frequency = .ok maxLevel)
    (hbuf : m.receivedSignalOn signal.frequency = some (t0, currentSignal))
    (hlt : signal.level < currentSignal.level) :
    m.receiveSignal coin signal time = (.error .signalTooWeak, m) := by
  unfold RXModule.receiveSignal
  rw [hmax, hbuf]
  simp [hlt]

/-- C2 (witness): a Red signal arriving after a Yellow one is buffered
on the same frequency is rejected as too weak, the module unchanged. -/
theorem receiveSignal_strictly_weaker_rejected_witness :
    rxWithYellowBuffered.receiveSignal true weakIncoming 1
      = (Except.error RXError.signalTooWeak, rxWithYellowBuffered) :=
  receiveSignal_strictly_weaker_rejected rxWithYellowBuffered true weakIncoming 1 0
    ⟨5, 5, none, CONTROL_FREQUENCY, YELLOW_SIGNAL_LEVEL⟩ YELLOW_SIGNAL_LEVEL
    (by decide) (by decide) (by decide)

/-- Unfolding lemma for the derived lexicographic order on levels. -/
theorem SignalLevel.le_def (a b : SignalLevel) :
    a ≤ b ↔ a.rank < b.rank ∨ (a.rank = b.rank ∧ a.strength ≤ b.strength) :=
  Iff.rfl

/-- Bucketing strengths into levels is monotone with respect to the
derived order. -/
theorem SignalLevel.fromStrength_mono {s t : ℚ} (hst : s ≤ t) :
    SignalLevel.fromStrength s ≤ SignalLevel.fromStrength t := by
  unfold SignalLevel.fromStrength MAX_YELLOW_SIGNAL_STRENGTH
    MAX_RED_SIGNAL_STRENGTH MAX_BLACK_SIGNAL_STRENGTH
  split_ifs <;>
    rw [SignalLevel.le_def] <;>
    first
      | exact Or.inr ⟨rfl, hst⟩
      | (refine Or.inl ?_; simp [SignalLevel.rank]; done)
      | (exfalso; linarith)

/-- Every level below or equal to another Black-tier level is itself
Black-tier. -/
theorem SignalLevel.isBlack_of_le {x y : SignalLevel} (h : x ≤ y)
    (hy : y.isBlack = true) : x.isBlack = true := by
  cases y with
  | black s =>
    rw [SignalLevel.le_def] at h
    rcases h with h | ⟨h, -⟩ <;> cases x <;>
      simp_all [SignalLevel.rank, SignalLevel.isBlack]
  | red s => simp [SignalLevel.isBlack] at hy
  | yellow s => simp [SignalLevel.isBlack] at hy
  | green s => simp [SignalLevel.isBlack] at hy

/-- A well-formed level that is not below or equal to the reference
Black level has strength above the Black threshold. -/
theorem SignalLevel.one_lt_strength_of_not_le_black {l : SignalLevel}
    (hwf : l.WellFormed) (h : ¬ l ≤ BLACK_SIGNAL_LEVEL) : 1 < l.strength := by
  by_contra hle
  push_neg at hle
  apply h
  have hb : SignalLevel.fromStrength l.strength = .black l.strength := by
    unfold SignalLevel.fromStrength MAX_YELLOW_SIGNAL_STRENGTH
      MAX_RED_SIGNAL_STRENGTH MAX_BLACK_SIGNAL_STRENGTH
    rw [if_neg (not_lt.mpr (hle.trans (by norm_num))),
      if_neg (not_lt.mpr (hle.trans (by norm_num))), if_neg (not_lt.mpr hle)]
  rw [SignalLevel.WellFormed, hb] at hwf
  rw [SignalLevel.le_def]
  refine Or.inr ⟨?_, ?_⟩
  · rw [← hwf]
    simp [SignalLevel.rank, BLACK_SIGNAL_LEVEL]
  · simpa [BLACK_SIGNAL_LEVEL, SignalLevel.strength, MAX_BLACK_SIGNAL_STRENGTH]
      using hle

/-- C3 (amended): for distances strictly beyond one wavelength,
`at(frequency, distance)` of a well-formed source level is non-increasing
in distance, hence Black-tier results are absorbing there; and a source
level at or below Black yields Black at every distance.  (As stated over
all distances the claim fails: within one wavelength the attenuation
factor is the constant `wavelength²`, which for wavelengths below one
meter is smaller than the factor just beyond the wavelength, so the
received level jumps up as the distance crosses the wavelength.) -/
theorem atDistance_antitone_beyond_waveLength (l : SignalLevel) (f : Megahertz)
    (d1 d2 : Meter) (hwf : l.WellFormed) (h1 : waveLengthInMeters f < d1)
    (h12 : d1 ≤ d2) :
    l.atDistance f d2 ≤ l.atDistance f d1 ∧
    ((l.atDistance f d1).isBlack = true → (l.atDistance f d2).isBlack = true) ∧
    (∀ dist : Meter, l ≤ BLACK_SIGNAL_LEVEL → l.atDistance f dist = BLACK_SIGNAL_LEVEL) := by
  have hblack : ∀ dist : Meter, l ≤ BLACK_SIGNAL_LEVEL →
      l.atDistance f dist = BLACK_SIGNAL_LEVEL := by
    intro dist hb
    unfold SignalLevel.atDistance
    rw [if_pos hb]
  have hmain : l.atDistance f d2 ≤ l.atDistance f d1 := by
    by_cases hb : l ≤ BLACK_SIGNAL_LEVEL
    · rw [hblack _ hb, hblack _ hb, SignalLevel.le_def]
      exact Or.inr ⟨rfl, le_refl _⟩
    · have hs : 1 < l.strength := SignalLevel.one_lt_strength_of_not_le_black hwf hb
      have hwl : 0 ≤ waveLengthInMeters f := by
        unfold waveLengthInMeters
        positivity
      have hd1 : 0 < d1 := lt_of_le_of_lt hwl h1
      have hd2 : 0 < d2 := lt_of_lt_of_le hd1 h12
      have hnle1 : ¬ d1 ≤ waveLengthInMeters f := not_le.mpr h1
      have hnle2 : ¬ d2 ≤ waveLengthInMeters f := not_le.mpr (lt_of_lt_of_le h1 h12)
      have hdiv : waveLengthInMeters f / d2 ≤ waveLengthInMeters f / d1 := by
        rw [div_le_div_iff₀ hd2 hd1]
        exact mul_le_mul_of_nonneg_left h12 hwl
      have hsq : (waveLengthInMeters f / d2) ^ 2 ≤ (waveLengthInMeters f / d1) ^ 2 :=
        pow_le_pow_left₀ (div_nonneg hwl hd2.le) hdiv 2
      have hspos : (0 : ℚ) ≤ l.strength := le_of_lt (lt_trans one_pos hs)
      have hscale : (0 : ℚ) ≤ l.strength * SIGNAL_STRENGTH_SCALING := by
        unfold SIGNAL_STRENGTH_SCALING
        exact mul_nonneg hspos (by norm_num)
      have hmono : (waveLengthInMeters f / d2) ^ 2 * l.strength * SIGNAL_STRENGTH_SCALING
          ≤ (waveLengthInMeters f / d1) ^ 2 * l.strength * SIGNAL_STRENGTH_SCALING := by
        rw [mul_assoc, mul_assoc]
        exact mul_le_mul_of_nonneg_right hsq hscale
      simp only [SignalLevel.atDistance]
      rw [if_neg hb, if_neg hb, if_neg hnle1, if_neg hnle2]
      exact SignalLevel.fromStrength_mono hmono
  exact ⟨hmain, fun hb1 => SignalLevel.isBlack_of_le hmain hb1, hblack⟩

/-- C3 (witness): the Green reference level at 2000 MHz is well-formed,
one meter exceeds the wavelength, and the received level at two meters
is at most the one at one meter. -/
theorem atDistance_antitone_beyond_waveLength_witness :
    GREEN_SIGNAL_LEVEL.WellFormed ∧ waveLengthInMeters 2000 < 1 ∧ (1 : ℚ) ≤ 2 ∧
    GREEN_SIGNAL_LEVEL.atDistance 2000 2 ≤ GREEN_SIGNAL_LEVEL.atDistance 2000 1 := by
  have hwf : GREEN_SIGNAL_LEVEL.WellFormed := by
    unfold SignalLevel.WellFormed GREEN_SIGNAL_LEVEL SignalLevel.fromStrength
      MAX_YELLOW_SIGNAL_STRENGTH GREEN_SIGNAL_STRENGTH_VALUE
    norm_num [SignalLevel.strength]
  have hwl : waveLengthInMeters 2000 < 1 := by
    unfold waveLengthInMeters
    norm_num
  exact ⟨hwf, hwl, by norm_num,
    (atDistance_antitone_beyond_waveLength GREEN_SIGNAL_LEVEL 2000 1 2 hwf hwl
      (by norm_num)).1⟩

/-- C3 (counterexample): at 2400 MHz (wavelength ≈ 0.125 m) the Green
reference level received at 0.2 m is strictly above the one received at
0.1 m, and neither is Black — so `at` is not non-increasing in distance
before reaching Black. -/
theorem atDistance_not_antitone :
    (1 : ℚ)/10 ≤ 2/10 ∧
    ¬ GREEN_SIGNAL_LEVEL.atDistance 2400 (2/10) ≤ GREEN_SIGNAL_LEVEL.atDistance 2400 (1/10) ∧
    (GREEN_SIGNAL_LEVEL.atDistance 2400 (1/10)).isBlack = false := by
  have hng : ¬ (SignalLevel.green 100 ≤ SignalLevel.black 1) := by
    rw [SignalLevel.le_def]
    simp [SignalLevel.rank]
  have h1 : GREEN_SIGNAL_LEVEL.atDistance 2400 (1/10)
      = .green ((299792458 / 2400000000) ^ 2 * 100 * 2500) := by
    unfold SignalLevel.atDistance GREEN_SIGNAL_LEVEL waveLengthInMeters
      SignalLevel.fromStrength BLACK_SIGNAL_LEVEL MAX_BLACK_SIGNAL_STRENGTH
      MAX_YELLOW_SIGNAL_STRENGTH MAX_RED_SIGNAL_STRENGTH
      GREEN_SIGNAL_STRENGTH_VALUE SIGNAL_STRENGTH_SCALING
    rw [if_neg hng]
    norm_num [SignalLevel.strength]
  have h2 : GREEN_SIGNAL_LEVEL.atDistance 2400 (2/10)
      = .green ((299792458 / 2400000000 / (2/10)) ^ 2 * 100 * 2500) := by
    unfold SignalLevel.atDistance GREEN_SIGNAL_LEVEL waveLengthInMeters
      SignalLevel.fromStrength BLACK_SIGNAL_LEVEL MAX_BLACK_SIGNAL_STRENGTH
      MAX_YELLOW_SIGNAL_STRENGTH MAX_RED_SIGNAL_STRENGTH
      GREEN_SIGNAL_STRENGTH_VALUE SIGNAL_STRENGTH_SCALING
    rw [if_neg hng]
    norm_num [SignalLevel.strength]
  refine ⟨by norm_num, ?_, ?_⟩
  · rw [h1, h2, SignalLevel.le_def]
    push_neg
    refine ⟨by simp [SignalLevel.rank], fun _ => ?_⟩
    simp only [SignalLevel.strength]
    norm_num
  · rw [h1]
    simp [SignalLevel.isBlack]

/-- C7 (code evaluation at the failing input): the connection graph has
the two nodes 1 and 2 and the device map holds exactly those two
devices, the external source device 5 is 100 and 93 meters away from
them, yet the broadcast delay map from outside the network is empty —
the code looks up the broadcast id (0) itself in the device map instead
of each graph node's id. -/
theorem broadcastDelayMapFromOutsideNetwork_empty :
    broadcastDelayMapFromOutsideNetwork Device.id deviceAxisDist
      [(1, 2, (7, GREEN_SIGNAL_LEVEL))] BROADCAST_ID (axisDevice 5 100)
      [axisDevice 1 0, axisDevice 2 7] 1 = [] ∧
    ConnectionMap.nodes [(1, 2, (7, GREEN_SIGNAL_LEVEL))] = [1, 2] := by
  decide

/-- Adding an edge whose endpoint pair is not yet in the graph appends
it. -/
theorem ConnectionMap.addEdge_fresh (g : ConnectionMap) (s t : DeviceId)
    (w : EdgeWeight) (h : (s, t) ∉ g.map fun x => (x.1, x.2.1)) :
    g.addEdge s t w = g ++ [(s, t, w)] := by
  unfold ConnectionMap.addEdge
  rw [if_neg]
  intro hc
  rw [List.any_eq_true] at hc
  obtain ⟨e, hmem, he⟩ := hc
  simp only [decide_eq_true_eq] at he
  exact h (List.mem_map.mpr ⟨e, hmem, by simp [he.1, he.2]⟩)

/-- Folding `add_edge` over an edge list with keys fresh for the
accumulator (and mutually distinct) appends the list. -/
theorem ConnectionMap.foldl_addEdge_append (rest : List SerdeEdge) (g : ConnectionMap)
    (h : ((g ++ rest).map fun e => (e.1, e.2.1)).Nodup) :
    rest.foldl (fun g' e => g'.addEdge e.1 e.2.1 e.2.2) g = g ++ rest := by
  induction rest generalizing g with
  | nil => simp
  | cons e rest ih =>
    rw [List.foldl_cons]
    have h' : (((g ++ [e]) ++ rest).map fun x => (x.1, x.2.1)).Nodup := by
      simpa using h
    have hfresh : (e.1, e.2.1) ∉ g.map fun x => (x.1, x.2.1) := by
      intro hc
      rw [List.map_append, List.map_cons] at h
      rcases List.nodup_append.mp h with ⟨-, -, hdisj⟩
      exact hdisj hc (List.mem_cons_self _ _)
    rw [ConnectionMap.addEdge_fresh g e.1 e.2.1 e.2.2 hfresh]
    simpa using ih (g ++ [e]) h'

/-- C9: serializing a network model to the persisted snapshot document
and deserializing the result is the identity (for the well-formed edge
lists every `GraphMap` produces) — in particular device ids, device
positions, the connection-graph edge set and the topology tag are all
preserved. -/
theorem snapshot_roundtrip (m : NetworkModel)
    (hwf : m.connections.graphMap.WFEdges) :
    NetworkModel.fromSnapshot m.toSnapshot = m := by
  obtain ⟨ct, cid, dm, ad, g, ⟨gm, topo⟩, dmul, sc, q⟩ := m
  unfold ConnectionMap.WFEdges at hwf
  simp only at hwf
  have h : ConnectionMap.fromEdges gm = gm := by
    unfold ConnectionMap.fromEdges
    have := ConnectionMap.foldl_addEdge_append gm [] (by simpa using hwf)
    simpa using this
  unfold NetworkModel.fromSnapshot NetworkModel.toSnapshot
  simp only [h]

/-- A small concrete network model: two devices, one edge, star
topology. -/
def exNetworkModel : NetworkModel where
  currentTime := 0
  commandDeviceId := 1
  deviceMap := [(1, axisDevice 1 0), (2, axisDevice 2 7)]
  attackerDevices := [⟨axisDevice 3 20, .electronicWarfare⟩]
  gps := ⟨axisDevice 4 50⟩
  connections := ⟨[(1, 2, (7, GREEN_SIGNAL_LEVEL))], .star⟩
  delayMultiplier := 1
  scenario := []
  signalQueue := []

/-- C9 (witness): the round trip is the identity on a concrete model. -/
theorem snapshot_roundtrip_witness :
    exNetworkModel.connections.graphMap.WFEdges ∧
    NetworkModel.fromSnapshot exNetworkModel.toSnapshot = exNetworkModel :=
  ⟨by decide, snapshot_roundtrip exNetworkModel (by decide)⟩

/-- Membership after `add_edge`: every edge either was present or is
the added endpoint pair. -/
theorem ConnectionMap.mem_addEdge {g : ConnectionMap} {s t : DeviceId}
    {w : EdgeWeight} {e : SerdeEdge} (h : e ∈ g.addEdge s t w) :
    e ∈ g ∨ (e.1 = s ∧ e.2.1 = t) := by
  unfold ConnectionMap.addEdge at h
  split_ifs at h with hc
  · rcases List.mem_map.mp h with ⟨x, hx, hfx⟩
    by_cases hk : x.1 = s ∧ x.2.1 = t
    · rw [if_pos hk] at hfx
      right
      rw [← hfx]
      exact ⟨rfl, rfl⟩
    · rw [if_neg hk] at hfx
      left
      rw [← hfx]
      exact hx
  · rcases List.mem_append.mp h with h | h
    · left; exact h
    · right
      rcases List.mem_singleton.mp h with rfl
      exact ⟨rfl, rfl⟩

section StarTheorems

variable {D : Type} (did : D → DeviceId) (distTo : D → D → Meter)
variable (txLevelAt : D → D → Megahertz → Option SignalLevel)

/-- Membership after `connect_devices`: every edge either was present or
joins the two connected devices (in one of the two directions). -/
theorem mem_connectDevices {g : ConnectionMap} {d1 d2 : D} {freq : Megahertz}
    {e : SerdeEdge}
    (h : e ∈ connectDevices did distTo txLevelAt g d1 d2 freq) :
    e ∈ g ∨ (e.1 = did d1 ∧ e.2.1 = did d2) ∨ (e.1 = did d2 ∧ e.2.1 = did d1) := by
  unfold connectDevices at h
  split_ifs at h with hid
  · left; exact h
  · rcases h1 : txLevelAt d1 d2 freq with _ | l1 <;> rw [h1] at h <;>
      rcases h2 : txLevelAt d2 d1 freq with _ | l2 <;> rw [h2] at h <;>
      simp only at h
    · left; exact h
    · rcases ConnectionMap.mem_addEdge h with h | h
      · left; exact h
      · right; right; exact h
    · rcases ConnectionMap.mem_addEdge h with h | h
      · left; exact h
      · right; left; exact h
    · rcases ConnectionMap.mem_addEdge h with h | h
      · rcases ConnectionMap.mem_addEdge h with h | h
        · left; exact h
        · right; left; exact h
      · right; right; exact h

/-- Unfolding one step of `create_star`. -/
theorem createStar_cons (g : ConnectionMap) (c d : D) (rest : List D)
    (freq : Megahertz) :
    createStar did distTo txLevelAt g c (d :: rest) freq
      = createStar did distTo txLevelAt
          (connectDevices did distTo txLevelAt g c d freq) c rest freq :=
  rfl

/-- Every edge of a star graph built over an accumulator of
command-incident edges is incident to the command device. -/
theorem createStar_incident (c : D) (freq : Megahertz) (devices : List D)
    (g : ConnectionMap) (hg : ∀ e ∈ g, e.1 = did c ∨ e.2.1 = did c) :
    ∀ e ∈ createStar did distTo txLevelAt g c devices freq,
      e.1 = did c ∨ e.2.1 = did c := by
  induction devices generalizing g with
  | nil => simpa [createStar] using hg
  | cons d rest ih =>
    intro e he
    rw [createStar_cons] at he
    refine ih (connectDevices did distTo txLevelAt g c d freq) ?_ e he
    intro e' he'
    rcases mem_connectDevices did distTo txLevelAt he' with h | h | h
    · exact hg e' h
    · exact Or.inl h.1
    · exact Or.inr h.2

/-- Length of the star graph built over a list of devices whose
command-to-device links all transmit and whose device-to-command links
all do not: one edge per non-command device. -/
theorem createStar_length (c : D) (freq : Megahertz) (devices : List D)
    (g : ConnectionMap)
    (hforward : ∀ d ∈ devices, did d ≠ did c → (txLevelAt c d freq).isSome = true)
    (hback : ∀ d ∈ devices, did d ≠ did c → txLevelAt d c freq = none)
    (hnd : (devices.map did).Nodup)
    (hfresh : ∀ d ∈ devices, (did c, did d) ∉ g.map fun e => (e.1, e.2.1)) :
    (createStar did distTo txLevelAt g c devices freq).length
      = g.length + (devices.filter fun d => did d ≠ did c).length := by
  induction devices generalizing g with
  | nil => simp [createStar]
  | cons d rest ih =>
    rw [createStar_cons, List.filter_cons]
    rw [List.map_cons, List.nodup_cons] at hnd
    by_cases hid : did c = did d
    · have hg' : connectDevices did distTo txLevelAt g c d freq = g := by
        unfold connectDevices
        rw [if_pos hid]
      rw [hg', ih g (fun x hx => hforward x (List.mem_cons_of_mem d hx))
        (fun x hx => hback x (List.mem_cons_of_mem d hx)) hnd.2
        (fun x hx => hfresh x (List.mem_cons_of_mem d hx))]
      have hdec : (decide (did d ≠ did c)) = false := by
        simp [hid.symm]
      rw [hdec]
      simp
    · have hne : did d ≠ did c := fun hcon => hid hcon.symm
      obtain ⟨l1, hl1⟩ := Option.isSome_iff_exists.mp
        (hforward d (List.mem_cons_self d rest) hne)
      have hg' : connectDevices did distTo txLevelAt g c d freq
          = g ++ [(did c, did d, (distTo d c, l1))] := by
        unfold connectDevices
        rw [if_neg hid, hl1, hback d (List.mem_cons_self d rest) hne]
        simp only
        exact ConnectionMap.addEdge_fresh g (did c) (did d) (distTo d c, l1)
          (hfresh d (List.mem_cons_self d rest))
      rw [hg', ih (g ++ [(did c, did d, (distTo d c, l1))])
        (fun x hx => hforward x (List.mem_cons_of_mem d hx))
        (fun x hx => hback x (List.mem_cons_of_mem d hx)) hnd.2 ?_]
      · have hdec : (decide (did d ≠ did c)) = true := by
          simp [hne]
        rw [hdec]
        simp
        omega
      · intro x hx hc
        rw [List.map_append] at hc
        rcases List.mem_append.mp hc with hc | hc
        · exact hfresh x (List.mem_cons_of_mem d hx) hc
        · simp only [List.map_cons, List.map_nil, List.mem_singleton,
            Prod.mk.injEq] at hc
          exact hnd.1 (hc.2 ▸ List.mem_map_of_mem did hx)

/-- With unique device ids, the devices other than the one carrying the
command id number one less than the whole map. -/
theorem filter_ne_command_length (devices : List D) (c : D)
    (hnd : (devices.map did).Nodup) (hc : c ∈ devices) :
    (devices.filter fun d => did d ≠ did c).length = devices.length - 1 := by
  induction devices with
  | nil => cases hc
  | cons d rest ih =>
    rw [List.map_cons, List.nodup_cons] at hnd
    by_cases hid : did d = did c
    · have hall : ∀ x ∈ rest, did x ≠ did c := by
        intro x hx hcon
        exact hnd.1 (hid ▸ hcon ▸ List.mem_map_of_mem did hx)
      have hdec : (decide (did d ≠ did c)) = false := by simp [hid]
      rw [List.filter_cons, hdec]
      simp only [Bool.false_eq_true, if_false]
      rw [List.filter_eq_self.mpr fun x hx => by simpa using hall x hx]
      simp
    · have hcrest : c ∈ rest := by
        rcases List.mem_cons.mp hc with rfl | h
        · exact absurd rfl hid
        · exact h
      have hlen := ih hnd.2 hcrest
      have hpos : 1 ≤ rest.length := List.length_pos.mpr (List.ne_nil_of_mem hcrest)
      have hdec : (decide (did d ≠ did c)) = true := by simp [hid]
      rw [List.filter_cons, hdec]
      simp only [List.length_cons, if_true]
      omega

/-- C6 (amended): after a Star-topology `ConnectionGraph::update` over a
device map containing the command device, every edge of the graph is
incident to the command device; and when the command device's transmit
reaches every other device while no other device's transmit reaches the
command device, the graph has exactly N−1 edges.  (As stated — exactly
N−1 edges for every device map — the claim fails, since each direction
is gated independently: a device map whose drone also reaches the
command device yields two edges per pair.) -/
theorem star_update_incident_and_count (cg : ConnectionGraph)
    (commandId : DeviceId) (devices : List D) (freq : Megahertz) (c : D)
    (htopo : cg.topology = .star)
    (hfind : devices.find? (fun d => did d = commandId) = some c)
    (hnd : (devices.map did).Nodup) :
    (∀ e ∈ (updateConnectionGraph did distTo txLevelAt cg commandId
        devices freq).graphMap, e.1 = did c ∨ e.2.1 = did c) ∧
    ((∀ d ∈ devices, did d ≠ did c → (txLevelAt c d freq).isSome = true) →
     (∀ d ∈ devices, did d ≠ did c → txLevelAt d c freq = none) →
     (updateConnectionGraph did distTo txLevelAt cg commandId
        devices freq).graphMap.length = devices.length - 1) := by
  have hupd : updateConnectionGraph did distTo txLevelAt cg commandId devices freq
      = { cg with graphMap :=
          createStar did distTo txLevelAt [] c devices freq } := by
    unfold updateConnectionGraph
    rw [hfind, htopo]
  rw [hupd]
  constructor
  · exact createStar_incident did distTo txLevelAt c freq devices [] (by simp)
  · intro hforward hback
    have hc : c ∈ devices := List.mem_of_find?_eq_some hfind
    simp only
    rw [createStar_length did distTo txLevelAt c freq devices [] hforward hback hnd
      (by simp)]
    simpa using filter_ne_command_length did devices c hnd hc

/-- Updating a star graph over exactly a command device and one drone
that reach each other yields one edge in each direction. -/
theorem star_two_edges_general (cg : ConnectionGraph) (c d : D)
    (freq : Megahertz) (l1 l2 : SignalLevel)
    (htopo : cg.topology = .star)
    (hne : ¬ did c = did d)
    (h1 : txLevelAt c d freq = some l1)
    (h2 : txLevelAt d c freq = some l2)
    (hfind : [c, d].find? (fun x => did x = did c) = some c) :
    (updateConnectionGraph did distTo txLevelAt cg (did c) [c, d] freq).graphMap
      = [(did c, did d, (distTo d c, l1)), (did d, did c, (distTo d c, l2))] := by
  unfold updateConnectionGraph
  rw [hfind, htopo]
  simp only
  unfold createStar
  rw [List.foldl_cons, List.foldl_cons, List.foldl_nil]
  have hcc : connectDevices did distTo txLevelAt [] c c freq = [] := by
    unfold connectDevices
    rw [if_pos rfl]
  rw [hcc]
  unfold connectDevices
  rw [if_neg hne, h1, h2]
  simp only
  unfold ConnectionMap.addEdge
  simp [hne]

end StarTheorems

/-- No level other than a Green-tier one precedes `green 100` in the
order; in particular the reference Green level is not below Black. -/
theorem green_not_le_black_ref : ¬ (SignalLevel.green 100 ≤ SignalLevel.black 1) := by
  rw [SignalLevel.le_def]
  simp [SignalLevel.rank]

/-- The Green reference level received at distance zero on the control
frequency: the within-wavelength branch applies and the result is
Green-tier. -/
theorem green_atDistance_zero :
    GREEN_SIGNAL_LEVEL.atDistance CONTROL_FREQUENCY 0
      = .green ((299792458 / 2400000000) ^ 2 * 100 * 2500) := by
  unfold SignalLevel.atDistance GREEN_SIGNAL_LEVEL CONTROL_FREQUENCY
    waveLengthInMeters SignalLevel.fromStrength BLACK_SIGNAL_LEVEL
    MAX_BLACK_SIGNAL_STRENGTH MAX_YELLOW_SIGNAL_STRENGTH
    MAX_RED_SIGNAL_STRENGTH GREEN_SIGNAL_STRENGTH_VALUE SIGNAL_STRENGTH_SCALING
  rw [if_neg green_not_le_black_ref]
  norm_num [SignalLevel.strength]

/-- A device transmitting Green on the control frequency delivers a
Green-tier level to any colocated device. -/
theorem controlTx_txLevelAt_colocated (a b : Device)
    (ha : a.trxSystem = controlTx GREEN_SIGNAL_LEVEL)
    (hx : b.realPosition.x = a.realPosition.x) :
    deviceTxLevelAt a b CONTROL_FREQUENCY
      = some (.green ((299792458 / 2400000000) ^ 2 * 100 * 2500)) := by
  have hdist : deviceAxisDist a b = 0 := by
    unfold deviceAxisDist
    rw [hx]
    simp
  unfold deviceTxLevelAt
  rw [hdist, ha]
  unfold controlTx TRXSystem.txSignalLevelAt TXModule.signalLevelAtByStrength
  simp only [List.lookup, beq_self_eq_true]
  rw [green_atDistance_zero]
  simp [SignalLevel.isBlack]

/-- C6 (counterexample): a star update over two devices (the command
device and one drone, colocated, both transmitting Green on the control
frequency) produces two edges, one per direction — not N−1 = 1. -/
theorem star_update_two_edges :
    (updateConnectionGraph Device.id deviceAxisDist deviceTxLevelAt
      ⟨[], .star⟩ 1 [starCommand, starDroneTx] CONTROL_FREQUENCY).graphMap.length = 2 ∧
    [starCommand, starDroneTx].length - 1 = 1 := by
  have h1 := controlTx_txLevelAt_colocated starCommand starDroneTx rfl rfl
  have h2 := controlTx_txLevelAt_colocated starDroneTx starCommand rfl rfl
  have hmain := star_two_edges_general Device.id deviceAxisDist deviceTxLevelAt
    ⟨[], .star⟩ starCommand starDroneTx CONTROL_FREQUENCY _ _ rfl (by decide)
    h1 h2 (by decide)
  have hid : starCommand.id = 1 := rfl
  rw [hid] at hmain
  rw [hmain]
  simp

/-- C6 (witness): over the command device and a drone with no transmit
capability, the star update has exactly N−1 = 1 edge. -/
theorem star_update_incident_and_count_witness :
    ([starCommand, starDroneNoTx].map Device.id).Nodup ∧
    (updateConnectionGraph Device.id deviceAxisDist deviceTxLevelAt
      ⟨[], .star⟩ 1 [starCommand, starDroneNoTx] CONTROL_FREQUENCY).graphMap.length
      = [starCommand, starDroneNoTx].length - 1 := by
  have h := star_update_incident_and_count Device.id deviceAxisDist deviceTxLevelAt
    ⟨[], .star⟩ 1 [starCommand, starDroneNoTx] CONTROL_FREQUENCY starCommand
    rfl (by decide) (by decide)
  refine ⟨by decide, h.2 ?_ ?_⟩
  · intro d hd hne
    rcases List.mem_cons.mp hd with rfl | hd
    · exact absurd rfl hne
    · rcases List.mem_cons.mp hd with rfl | hd
      · rw [controlTx_txLevelAt_colocated starCommand starDroneNoTx rfl rfl]
        rfl
      · cases hd
  · intro d hd hne
    rcases List.mem_cons.mp hd with rfl | hd
    · exact absurd rfl hne
    · rcases List.mem_cons.mp hd with rfl | hd
      · decide
      · cases hd

/-- Consuming strictly within the budget reduces the power and
succeeds. -/
theorem tryConsumePower_ok (d : Device) (p : PowerUnit)
    (h : ¬ d.powerSystem.power - p = 0) :
    d.tryConsumePower p = (.ok (),
      { d with powerSystem :=
        { d.powerSystem with power := d.powerSystem.power - p } }) := by
  unfold Device.tryConsumePower PowerSystem.consumePower
  rw [if_neg h]

/-- Consuming the whole remaining budget errors and selfdestructs. -/
theorem tryConsumePower_err (d : Device) (p : PowerUnit)
    (h : d.powerSystem.power - p = 0) :
    d.tryConsumePower p = (.error .noPowerLeft, d.selfdestruction) := by
  unfold Device.tryConsumePower PowerSystem.consumePower
  rw [if_pos h]

/-- A fold whose step fixes the start value returns the start value. -/
theorem foldl_const {α β : Type} (f : α → β → α) (a : α) (l : List β)
    (h : ∀ b ∈ l, f a b = a) : l.foldl f a = a := by
  induction l with
  | nil => rfl
  | cons b rest ih =>
    rw [List.foldl_cons, h b (List.mem_cons_self b rest)]
    exact ih fun x hx => h x (List.mem_cons_of_mem b hx)

/-- When every malware payload due this tick is an Indicator,
`handle_malware_infections` leaves the device unchanged. -/
theorem handleMalwareInfections_id (d : Device)
    (hmal : ∀ p ∈ d.malwareInfections,
      d.currentTime = p.1 + p.2.infectionDelay → p.2.malwareType = .indicator) :
    d.handleMalwareInfections = d := by
  unfold Device.handleMalwareInfections
  refine foldl_const _ d d.malwareInfections ?_
  rintro ⟨infectionTime, malware⟩ hp
  dsimp only
  by_cases hdue : d.currentTime = infectionTime + malware.infectionDelay
  · rw [if_neg (fun hc => hc hdue), hmal _ hp hdue]
  · rw [if_pos hdue]

/-- Processing an empty receive buffer does nothing. -/
theorem processReceivedSignals_empty (d : Device)
    (h : d.trxSystem.rxModule.receivedSignals = []) :
    d.processReceivedSignals = (.ok (), d) := by
  unfold Device.processReceivedSignals
  rw [h]
  rfl

/-- A device with an empty receive buffer receives no signal on any
frequency. -/
theorem receivesSignalOn_empty (d : Device) (freq : Megahertz)
    (h : d.trxSystem.rxModule.receivedSignals = []) :
    d.receivesSignalOn freq = false := by
  unfold Device.receivesSignalOn TRXSystem.receivesSignalOn RXModule.receivesSignalOn
  rw [h]
  rfl

/-- With no GPS signal buffered, `process_task` never consumes power,
never disables movement, and never touches the TRX system. -/
theorem processTask_preserves (d : Device)
    (hbuf : d.trxSystem.rxModule.receivedSignals = []) :
    (d.processTask).powerSystem = d.powerSystem ∧
    (d.processTask).movementSystem.disabled = d.movementSystem.disabled ∧
    (d.processTask).trxSystem = d.trxSystem := by
  have hgps : d.receivesSignalOn GPS_L1_FREQUENCY = false :=
    receivesSignalOn_empty d GPS_L1_FREQUENCY hbuf
  rcases hdest : d.task.dest with _ | dest
  · simp [Device.processTask, hdest]
  · simp [Device.processTask, hdest, hgps, Device.setHorizontalVelocity,
      MovementSystem.setVelocity]

/-- A signal-loss response other than Shutdown, handled with an empty
receive buffer, never consumes power, never disables movement, and never
touches the TRX system. -/
theorem handleSignalLoss_preserves (d : Device)
    (hresp : d.signalLossResponse ≠ .shutdown)
    (hbuf : d.trxSystem.rxModule.receivedSignals = []) :
    (d.handleSignalLoss).powerSystem = d.powerSystem ∧
    (d.handleSignalLoss).movementSystem.disabled = d.movementSystem.disabled ∧
    (d.handleSignalLoss).trxSystem = d.trxSystem := by
  rcases hresp' : d.signalLossResponse with _ | _ | _ | home | _
  · unfold Device.handleSignalLoss
    rw [hresp']
    simp [MovementSystem.setDirection]
  · unfold Device.handleSignalLoss
    rw [hresp']
    exact processTask_preserves d hbuf
  · unfold Device.handleSignalLoss
    rw [hresp']
    exact processTask_preserves { d with task := ⟨.reconnect, some d.realPosition⟩, signalLossResponse := .hover } hbuf
  · unfold Device.handleSignalLoss
    rw [hresp']
    exact processTask_preserves { d with task := ⟨.reconnect, some home⟩, signalLossResponse := .returnToHome home } hbuf
  · exact absurd hresp' hresp

/-- A device with enabled movement and exactly the movement power cost
remaining errors with `NoPowerLeft` (selfdestructing) on the position
update. -/
theorem updateRealPosition_noPower (d : Device)
    (hmove : d.movementSystem.disabled = false)
    (hpow : d.powerSystem.power = MOVEMENT_POWER_CONSUMPTION) :
    d.updateRealPosition = (.error (.powerSystemError .noPowerLeft), d.selfdestruction) := by
  unfold Device.updateRealPosition MovementSystem.isDisabled
  rw [hmove]
  simp only [Bool.false_eq_true, if_false]
  rw [tryConsumePower_err d MOVEMENT_POWER_CONSUMPTION (by rw [hpow, Nat.sub_self])]

/-- C5 (amended): a device whose power budget equals exactly the
passive-plus-movement cost of one tick — receive buffer empty, movement
system enabled, signal-loss response other than Shutdown, and every
malware payload due this tick an Indicator — fails `update()` with
`NoPowerLeft` and reports `is_shut_down()` afterwards.  (As stated the
claim fails: a Shutdown signal-loss response selfdestructs mid-tick, so
`update()` returns `DisabledSystem` instead of `NoPowerLeft`.) -/
theorem update_exact_budget_noPowerLeft (d : Device)
    (hpow : d.powerSystem.power
      = PASSIVE_POWER_CONSUMPTION + MOVEMENT_POWER_CONSUMPTION)
    (hbuf : d.trxSystem.rxModule.receivedSignals = [])
    (hmove : d.movementSystem.disabled = false)
    (hresp : d.signalLossResponse ≠ .shutdown)
    (hmal : ∀ p ∈ d.malwareInfections,
      d.currentTime = p.1 + p.2.infectionDelay → p.2.malwareType = .indicator) :
    d.update.1 = Except.error (.powerSystemError .noPowerLeft) ∧
    d.update.2.isShutDown = true := by
  have hne1 : ¬ d.powerSystem.power - PASSIVE_POWER_CONSUMPTION = 0 := by
    rw [hpow]
    decide
  have h1 := tryConsumePower_ok d PASSIVE_POWER_CONSUMPTION hne1
  have h2 := handleMalwareInfections_id
    { d with powerSystem :=
      { d.powerSystem with power := d.powerSystem.power - PASSIVE_POWER_CONSUMPTION } }
    hmal
  have h3 := processReceivedSignals_empty
    { d with powerSystem :=
      { d.powerSystem with power := d.powerSystem.power - PASSIVE_POWER_CONSUMPTION } }
    hbuf
  have h4 := receivesSignalOn_empty
    { d with powerSystem :=
      { d.powerSystem with power := d.powerSystem.power - PASSIVE_POWER_CONSUMPTION } }
    CONTROL_FREQUENCY hbuf
  obtain ⟨hp4, hm4, ht4⟩ := handleSignalLoss_preserves
    { d with powerSystem :=
      { d.powerSystem with power := d.powerSystem.power - PASSIVE_POWER_CONSUMPTION } }
    hresp hbuf
  have h6 := updateRealPosition_noPower
    { ({ d with powerSystem :=
        { d.powerSystem with power := d.powerSystem.power - PASSIVE_POWER_CONSUMPTION } }
        : Device).handleSignalLoss with
      trxSystem := (({ d with powerSystem :=
        { d.powerSystem with power := d.powerSystem.power - PASSIVE_POWER_CONSUMPTION } }
        : Device).handleSignalLoss).trxSystem.clearReceivedSignals }
    (by rw [show ∀ x : Device, ∀ t, ({ x with trxSystem := t } : Device).movementSystem = x.movementSystem from fun _ _ => rfl]
        rw [hm4]
        exact hmove)
    (by rw [show ∀ x : Device, ∀ t, ({ x with trxSystem := t } : Device).powerSystem = x.powerSystem from fun _ _ => rfl]
        rw [hp4]
        show d.powerSystem.power - PASSIVE_POWER_CONSUMPTION = MOVEMENT_POWER_CONSUMPTION
        rw [hpow]
        decide)
  simp [Device.update, h1, h2, h3, h4, h6, Device.selfdestruction,
    Device.isShutDown]
  rfl

/-- C5 (witness): the concrete exact-budget device fails `update()` with
`NoPowerLeft` and is shut down afterwards. -/
theorem update_exact_budget_noPowerLeft_witness :
    budgetDevice.powerSystem.power
      = PASSIVE_POWER_CONSUMPTION + MOVEMENT_POWER_CONSUMPTION ∧
    budgetDevice.update.1 = Except.error (.powerSystemError .noPowerLeft) ∧
    budgetDevice.update.2.isShutDown = true := by
  have h := update_exact_budget_noPowerLeft budgetDevice (by decide) (by decide)
    (by decide) (by decide) (by decide)
  exact ⟨by decide, h.1, h.2⟩

/-- C5 (counterexample): the same exact-budget device with the Shutdown
signal-loss response satisfies the claim's premises (exact budget, empty
buffer, enabled movement), yet `update()` returns `DisabledSystem`
rather than `NoPowerLeft` — the mid-tick selfdestruction replaces the
movement system with the disabled default before the movement step
runs. -/
theorem update_shutdown_response_disabledSystem :
    shutdownDevice.powerSystem.power
      = PASSIVE_POWER_CONSUMPTION + MOVEMENT_POWER_CONSUMPTION ∧
    shutdownDevice.trxSystem.rxModule.receivedSignals = [] ∧
    shutdownDevice.movementSystem.disabled = false ∧
    shutdownDevice.update.1 = Except.error DeviceError.disabledSystem ∧
    shutdownDevice.update.2.isShutDown = true := by
  decide

/-- Keys absent from an association list are not found by `lookup`. -/
theorem lookup_eq_none_of_not_mem_keys {α β : Type} [BEq α] [LawfulBEq α]
    (l : List (α × β)) (a : α) (h : a ∉ l.map Prod.fst) : l.lookup a = none := by
  induction l with
  | nil => rfl
  | cons p rest ih =>
    rw [List.map_cons] at h
    simp only [List.mem_cons, not_or] at h
    rcases p with ⟨k, v⟩
    simp only [List.lookup]
    rw [show (a == k) = false from beq_eq_false_iff_ne.mpr h.1]
    exact ih h.2

/-- `try_consume_power` never touches the infection states. -/
theorem infectionStates_tryConsumePower (d : Device) (p : PowerUnit) :
    ((d.tryConsumePower p).2).infectionStates = d.infectionStates := by
  unfold Device.tryConsumePower PowerSystem.consumePower
  split <;> simp [Device.selfdestruction]

/-- `update_real_position` never touches the infection states. -/
theorem infectionStates_updateRealPosition (d : Device) :
    ((d.updateRealPosition).2).infectionStates = d.infectionStates := by
  unfold Device.updateRealPosition
  split_ifs with h
  · rfl
  · have hts := infectionStates_tryConsumePower d MOVEMENT_POWER_CONSUMPTION
    rcases hc : d.tryConsumePower MOVEMENT_POWER_CONSUMPTION with ⟨res, d'⟩
    rw [hc] at hts
    cases res <;> simpa using hts

/-- `receive_signal` never touches the infection states. -/
theorem infectionStates_receiveSignal (d : Device) (coin : Bool) (s : Signal)
    (t : Millisecond) :
    ((d.receiveSignal coin s t).2).infectionStates = d.infectionStates := by
  unfold Device.receiveSignal TRXSystem.receiveSignal
  split_ifs with h
  · rfl
  · rcases hr : d.trxSystem.rxModule.receiveSignal coin s t with ⟨res, rx'⟩
    cases res <;> simp [hr]

/-- A fold whose step preserves the infection states preserves them. -/
theorem foldl_infectionStates {β : Type} (f : Device → β → Device) (l : List β)
    (a : Device) (hf : ∀ x b, (f x b).infectionStates = x.infectionStates) :
    (l.foldl f a).infectionStates = a.infectionStates := by
  induction l generalizing a with
  | nil => rfl
  | cons b rest ih =>
    rw [List.foldl_cons]
    rw [ih (f a b)]
    exact hf a b

/-- `handle_malware_infections` reads but never writes the infection
states. -/
theorem infectionStates_handleMalwareInfections (d : Device) :
    (d.handleMalwareInfections).infectionStates = d.infectionStates := by
  unfold Device.handleMalwareInfections
  refine foldl_infectionStates _ _ _ ?_
  intro x b
  rcases b with ⟨t, m⟩
  dsimp only
  by_cases hdue : x.currentTime ≠ t + m.infectionDelay
  · rw [if_pos hdue]
  · rw [if_neg hdue]
    rcases hm : m.malwareType with lost | _
    · exact infectionStates_tryConsumePower x lost
    · rfl

/-- `try_complete_task` never touches the infection states. -/
theorem infectionStates_tryCompleteTask (d : Device) :
    (d.tryCompleteTask).infectionStates = d.infectionStates := by
  rcases hdest : d.task.dest with _ | dest
  · simp [Device.tryCompleteTask, hdest]
  · rcases htt : d.task.taskType with _ | _ | _ | _ <;>
      simp only [Device.tryCompleteTask, hdest, htt] <;>
      first
        | rfl
        | (split_ifs <;> simp [Device.selfdestruction])

/-- `process_task` never touches the infection states. -/
theorem infectionStates_processTask (d : Device) :
    (d.processTask).infectionStates = d.infectionStates := by
  rcases hdest : d.task.dest with _ | dest
  · simp [Device.processTask, hdest]
  · simp only [Device.processTask, hdest]
    split_ifs with h
    · rw [infectionStates_tryCompleteTask]
    · simp [Device.setHorizontalVelocity, MovementSystem.setVelocity]

/-- `handle_signal_loss` never touches the infection states. -/
theorem infectionStates_handleSignalLoss (d : Device) :
    (d.handleSignalLoss).infectionStates = d.infectionStates := by
  unfold Device.handleSignalLoss
  rcases hresp : d.signalLossResponse with _ | _ | _ | home | _
  · rfl
  · exact infectionStates_processTask d
  · exact infectionStates_processTask { d with task := ⟨.reconnect, some d.realPosition⟩, signalLossResponse := .hover }
  · exact infectionStates_processTask { d with task := ⟨.reconnect, some home⟩, signalLossResponse := .returnToHome home }
  · simp [Device.selfdestruction]

/-- `process_malware` never adds an infection-state entry for malware
outside the map's keys. -/
theorem keys_processMalware (d : Device) (mw malw : Malware)
    (h : malw ∉ d.infectionStates.map Prod.fst) :
    malw ∉ (d.processMalware mw).infectionStates.map Prod.fst := by
  unfold Device.processMalware
  rcases hstate : d.infectionStateOn mw with _ | _ | _
  case vulnerable =>
    have hne : mw ≠ malw := by
      rintro rfl
      unfold Device.infectionStateOn at hstate
      rw [lookup_eq_none_of_not_mem_keys _ _ h] at hstate
      simp at hstate
    simp only
    unfold mapInsert
    split_ifs with hex
    · intro hc
      rw [List.map_map] at hc
      rcases List.mem_map.mp hc with ⟨p, hp, hfp⟩
      by_cases hk : p.1 = mw
      · rw [Function.comp_apply, if_pos hk] at hfp
        exact hne hfp
      · rw [Function.comp_apply, if_neg hk] at hfp
        exact h (hfp ▸ List.mem_map_of_mem Prod.fst hp)
    · intro hc
      rw [List.map_append] at hc
      rcases List.mem_append.mp hc with hc | hc
      · exact h hc
      · simp only [List.map_cons, List.map_nil, List.mem_singleton] at hc
        exact hne hc.symm
  all_goals exact h

/-- `process_data` never adds an infection-state entry for unknown
malware. -/
theorem keys_processData (d : Device) (data : SignalData) (malw : Malware)
    (h : malw ∉ d.infectionStates.map Prod.fst) :
    malw ∉ (d.processData data).infectionStates.map Prod.fst := by
  rcases data with p | mw | t
  · simpa [Device.processData, MovementSystem.setPosition] using h
  · exact keys_processMalware d mw malw h
  · simpa [Device.processData] using h

/-- The received-signal processing loop never adds an infection-state
entry for unknown malware. -/
theorem keys_processSignalsAux (l : List ReceivedSignal) (d : Device)
    (malw : Malware) (h : malw ∉ d.infectionStates.map Prod.fst) :
    malw ∉ ((Device.processSignalsAux l d).2).infectionStates.map Prod.fst := by
  induction l generalizing d with
  | nil => exact h
  | cons rs rest ih =>
    rcases rs with ⟨t, sig⟩
    unfold Device.processSignalsAux
    rcases hdata : sig.data with _ | data
    · exact ih d h
    · have hts := infectionStates_tryConsumePower d PROCESSING_POWER_CONSUMPTION
      rcases hc : d.tryConsumePower PROCESSING_POWER_CONSUMPTION with ⟨res, d'⟩
      try rw [hc] at hts
      try rw [hc]
      cases res with
      | error e =>
        have hd' : d'.infectionStates = d.infectionStates := by simpa using hts
        simpa [hd'] using h
      | ok u =>
        cases u
        have hd' : d'.infectionStates = d.infectionStates := by simpa using hts
        have h' : malw ∉ d'.infectionStates.map Prod.fst := by
          rw [hd']
          exact h
        have hrec := ih (d'.processData data) (keys_processData d' data malw h')
        simpa using hrec

/-- `update` never adds an infection-state entry for unknown malware. -/
theorem keys_update (d : Device) (malw : Malware)
    (h : malw ∉ d.infectionStates.map Prod.fst) :
    malw ∉ ((d.update).2).infectionStates.map Prod.fst := by
  have hts1 := infectionStates_tryConsumePower d PASSIVE_POWER_CONSUMPTION
  rcases hc1 : d.tryConsumePower PASSIVE_POWER_CONSUMPTION with ⟨res1, d1⟩
  try rw [hc1] at hts1
  have hd1 : d1.infectionStates = d.infectionStates := by simpa using hts1
  cases res1 with
  | error e =>
    unfold Device.update
    simp only [hc1]
    simpa [hd1] using h
  | ok u =>
    cases u
    have h1 : malw ∉ d1.infectionStates.map Prod.fst := by
      rw [hd1]
      exact h
    have h2 : malw ∉ (d1.handleMalwareInfections).infectionStates.map Prod.fst := by
      rw [infectionStates_handleMalwareInfections]
      exact h1
    have h3 : malw ∉
        (((d1.handleMalwareInfections).processReceivedSignals).2).infectionStates.map
          Prod.fst := by
      unfold Device.processReceivedSignals
      exact keys_processSignalsAux _ _ malw h2
    rcases hc3 : (d1.handleMalwareInfections).processReceivedSignals with ⟨res3, d3⟩
    try rw [hc3] at h3
    have h3' : malw ∉ d3.infectionStates.map Prod.fst := by simpa using h3
    cases res3 with
    | error e =>
      unfold Device.update
      simp only [hc1, hc3]
      simpa using h3'
    | ok u =>
      cases u
      unfold Device.update
      simp only [hc1, hc3]
      split_ifs with hrx
      · have hts6 := infectionStates_updateRealPosition
          ({ d3.processTask with
             trxSystem := (d3.processTask).trxSystem.clearReceivedSignals } : Device)
        rcases hc6 : ({ d3.processTask with
            trxSystem := (d3.processTask).trxSystem.clearReceivedSignals }
            : Device).updateRealPosition with ⟨res6, d6⟩
        try rw [hc6] at hts6
        try rw [hc6]
        have h6 : malw ∉ d6.infectionStates.map Prod.fst := by
          have hd6 : d6.infectionStates = (d3.processTask).infectionStates := by
            simpa using hts6
          rw [hd6, infectionStates_processTask]
          exact h3'
        cases res6 with
        | error e => simpa using h6
        | ok u =>
          cases u
          simpa using h6
      · have hts6 := infectionStates_updateRealPosition
          ({ d3.handleSignalLoss with
             trxSystem := (d3.handleSignalLoss).trxSystem.clearReceivedSignals } : Device)
        rcases hc6 : ({ d3.handleSignalLoss with
            trxSystem := (d3.handleSignalLoss).trxSystem.clearReceivedSignals }
            : Device).updateRealPosition with ⟨res6, d6⟩
        try rw [hc6] at hts6
        try rw [hc6]
        have h6 : malw ∉ d6.infectionStates.map Prod.fst := by
          have hd6 : d6.infectionStates = (d3.handleSignalLoss).infectionStates := by
            simpa using hts6
          rw [hd6, infectionStates_handleSignalLoss]
          exact h3'
        cases res6 with
        | error e => simpa using h6
        | ok u =>
          cases u
          simpa using h6

/-- A single orchestrator-driven operation never adds an infection-state
entry for unknown malware. -/
theorem keys_applyDeviceOp (d : Device) (op : DeviceOp) (malw : Malware)
    (h : malw ∉ d.infectionStates.map Prod.fst) :
    malw ∉ (applyDeviceOp d op).infectionStates.map Prod.fst := by
  rcases op with ⟨coin, s, t⟩ | _ | _
  · unfold applyDeviceOp
    rw [infectionStates_receiveSignal]
    exact h
  · unfold applyDeviceOp Device.processReceivedSignals
    exact keys_processSignalsAux _ d malw h
  · exact keys_update d malw h

/-- C10: a device built with a vulnerabilities list not containing a
given malware reads `Patched` for it and can never become `Infected`
with it, whatever sequence of `receive_signal`,
`process_received_signals` and `update` operations the orchestrator
drives: devices are immune by default. -/
theorem device_immune_without_vulnerability (malw : Malware)
    (vulnerabilities : List Malware) (i : DeviceId) (pos : Point3D)
    (task : Task) (ps : PowerSystem) (ms : MovementSystem) (trx : TRXSystem)
    (slr : SignalLossResponse) (ops : List DeviceOp)
    (hnv : malw ∉ vulnerabilities) :
    (applyDeviceOps (Device.new i pos task ps ms trx vulnerabilities slr)
      ops).infectionStateOn malw = InfectionState.patched ∧
    (applyDeviceOps (Device.new i pos task ps ms trx vulnerabilities slr)
      ops).isInfectedWith malw = false := by
  have hkeys : ∀ (l : List DeviceOp) (d : Device),
      malw ∉ d.infectionStates.map Prod.fst →
      malw ∉ (applyDeviceOps d l).infectionStates.map Prod.fst := by
    intro l
    induction l with
    | nil => intro d h; exact h
    | cons op rest ih =>
      intro d h
      rw [applyDeviceOps, List.foldl_cons]
      exact ih (applyDeviceOp d op) (keys_applyDeviceOp d op malw h)
  have h0 :
      malw ∉ (Device.new i pos task ps ms trx vulnerabilities slr).infectionStates.map
        Prod.fst := by
    unfold Device.new
    simp only [List.map_map]
    simpa [Function.comp] using hnv
  have hfinal := hkeys ops _ h0
  have hlook := lookup_eq_none_of_not_mem_keys
    ((applyDeviceOps (Device.new i pos task ps ms trx vulnerabilities slr)
      ops).infectionStates) malw hfinal
  constructor
  · unfold Device.infectionStateOn
    rw [hlook]
    rfl
  · unfold Device.isInfectedWith
    rw [hlook]

/-- C10 (witness): a device with no vulnerabilities receives and
processes an indicator-malware signal and runs a tick, yet still reads
`Patched` and is not infected. -/
theorem device_immune_without_vulnerability_witness :
    indicatorMalware ∉ ([] : List Malware) ∧
    (applyDeviceOps immuneDevice infectionAttemptOps).infectionStateOn
      indicatorMalware = InfectionState.patched ∧
    (applyDeviceOps immuneDevice infectionAttemptOps).isInfectedWith
      indicatorMalware = false := by
  have h := device_immune_without_vulnerability indicatorMalware [] 1 ⟨0, 0, 0⟩
    default ⟨100, 100⟩ default rxOnlyTrx .ignore infectionAttemptOps
    (by decide)
  exact ⟨by decide, h.1, h.2⟩

end DroneNet
